import Mathlib

/-!
Verification development for the RepoScan scoring and vulnerability-detection
pipeline (Supabase edge functions and shared scanner modules).

Conventions of the shallow embedding:
* JavaScript numbers are modelled as `ℚ` (exact arithmetic); `Math.round` is
  `jsRound`, `Math.min`/`Math.max` are `min`/`max`, `x.toFixed(2)` is `toFixed2`.
* `Date.now()` and `Math.log10` are runtime primitives; functions reading them
  take them as explicit parameters (`now : ℚ` in epoch milliseconds,
  `lg : ℚ → ℚ`).  Date strings are modelled by their parsed epoch-millisecond
  value.
* Network fetches are the I/O boundary: scanner functions take the fetched
  content (or a `path → Option content` map) as a parameter, mirroring the
  value the `await fetch...` call produced.
* JS strings are Lean `String`s; `s.includes/startsWith/endsWith/toLowerCase/
  substring/split` are `jsIncludes/jsStartsWith/jsEndsWith/toLowerCase/
  List.take on .data/List.splitOn`, all operating on the character list.
* JS regular expressions are modelled by a small derivative-based regex
  engine (`Regex`), with each source pattern transcribed into a `Regex` value;
  case-insensitive (`/i`) patterns are transcribed in lower case and applied
  to the lower-cased subject.
-/

namespace RepoScan

/-- JS `Math.round`: round half towards positive infinity. -/
def jsRound (x : ℚ) : ℤ := ⌊x + 1/2⌋

/-- JS `Number(x.toFixed(2))` (idealised over exact rationals). -/
def toFixed2 (x : ℚ) : ℚ := (jsRound (x * 100) : ℚ) / 100

/-- Truthiness of a JS string-or-null value: `null`/`undefined` and `""` are falsy. -/
def jsTruthyStr : Option String → Bool
  | none => false
  | some s => s ≠ ""

/-- JS `String.prototype.toLowerCase` (character-wise). -/
def toLowerCase (s : String) : String := ⟨s.data.map Char.toLower⟩

/-- JS `s.includes(pat)` — substring containment. -/
def jsIncludes (s pat : String) : Bool := decide (List.IsInfix pat.data s.data)

/-- JS `s.startsWith(pat)`. -/
def jsStartsWith (s pat : String) : Bool := pat.data.isPrefixOf s.data

/-- JS `s.endsWith(pat)`. -/
def jsEndsWith (s pat : String) : Bool := pat.data.isSuffixOf s.data

/-- Severity of a finding (`vulnerabilityScanner.ts` / bundled `Vulnerability`). -/
inductive Severity
  | critical | high | medium | low
deriving DecidableEq, Repr

/-- Type of a finding. -/
inductive VulnType
  | dependency | code_pattern | configuration
deriving DecidableEq, Repr

/-- The `Vulnerability` record produced by every analyzer. -/
structure Vulnerability where
  severity : Severity
  type : VulnType
  description : String
  location : String
  cve_id : Option String := none
  details : Option String := none
deriving DecidableEq, Repr

/-- One element of the repository contents listing (GitHub contents API object).
`type` is `"file"` or `"dir"`. -/
structure FileEntry where
  name : String
  type : String
  size : ℚ
deriving DecidableEq, Repr

/-- `repo.license` object. -/
structure License where
  name : String
deriving DecidableEq, Repr

/-- Repository metadata fields read by the scoring engines.  The scoring code
is only reached when the metadata fetch succeeded (`if (!repoData.repo)`
guard in each handler), so the object itself is not optional here. -/
structure Repo where
  archived : Bool
  license : Option License
  description : Option String
  stargazers_count : ℚ
  forks_count : ℚ
  watchers_count : ℚ
  open_issues_count : ℚ
  has_issues : Bool
  has_discussions : Bool
  disabled : Bool
deriving DecidableEq, Repr

/-- One commit object: `c.commit.author.date` (as epoch ms) and
`c.commit.author.email`, the only fields the scoring engines read. -/
structure Commit where
  date : ℚ
  email : String
deriving DecidableEq, Repr

/-- Owner profile fields read by the scoring engines.  `company`/`blog` are
modelled by the truthiness of the corresponding JSON fields. -/
structure Owner where
  type : String
  created_at : ℚ
  public_repos : ℚ
  followers : ℚ
  company : Bool
  blog : Bool
deriving DecidableEq, Repr

/-- The `repoData` bundle returned by `fetchRepoData` (snapshot).  Contributor
objects themselves are never inspected, only the array length, so
contributors are modelled as `List Unit`. -/
structure RepoData where
  repo : Repo
  contents : List FileEntry
  commits : List Commit
  contributors : List Unit
  owner : Option Owner
deriving DecidableEq, Repr

/-- `by_type` sub-object of the vulnerability summary. -/
structure ByType where
  dependency : ℕ
  code_pattern : ℕ
  configuration : ℕ
deriving DecidableEq, Repr

/-- The vulnerability summary record. -/
structure VulnSummary where
  total_count : ℕ
  critical_count : ℕ
  high_count : ℕ
  medium_count : ℕ
  low_count : ℕ
  by_type : ByType
deriving DecidableEq, Repr

/-- `CodeQualityMetrics` as produced by `analyzeCodeQuality` and consumed by
the part_009 `scoreRepository` (only `quality_score` and `issues` are read). -/
structure CodeQualityMetrics where
  total_files_analyzed : ℕ
  avg_file_size : ℤ
  avg_complexity : ℚ
  comment_ratio : ℚ
  large_files_count : ℕ
  code_duplication_risk : ℚ
  quality_score : ℚ
  issues : List String
deriving DecidableEq, Repr

end RepoScan

namespace RepoScan

/-! ### A small regex engine (Brzozowski derivatives)

Models the JS regex constructs the transcribed patterns use: literal
characters, `.`, character classes, concatenation, alternation, `*`, `+`,
`?`.  `matchWhole` is whole-string matching (used for `^...$`-anchored
patterns); `test` is JS `RegExp.prototype.test` (match anywhere). -/

inductive Regex
  | emp
  | eps
  | chr (c : Char)
  | cls (p : Char → Bool)
  | cat (r₁ r₂ : Regex)
  | alt (r₁ r₂ : Regex)
  | star (r : Regex)

namespace Regex

/-- `.` — any character except a newline (no `s` flag anywhere in the source). -/
def dot : Regex := cls (fun c => c ≠ '\n')

/-- Any character at all (used to embed unanchored `test` into whole-string
matching). -/
def dotAll : Regex := cls (fun _ => true)

/-- Literal string. -/
def str (s : String) : Regex := s.data.foldr (fun c r => cat (chr c) r) eps

/-- `r+`. -/
def plus (r : Regex) : Regex := cat r (star r)

/-- `r?`. -/
def opt (r : Regex) : Regex := alt eps r

/-- `r{n,}` — at least `n` repetitions. -/
def repAtLeast : ℕ → Regex → Regex
  | 0, r => star r
  | n+1, r => cat r (repAtLeast n r)

def nullable : Regex → Bool
  | emp => false
  | eps => true
  | chr _ => false
  | cls _ => false
  | cat r₁ r₂ => nullable r₁ && nullable r₂
  | alt r₁ r₂ => nullable r₁ || nullable r₂
  | star _ => true

/-- Smart concatenation (keeps derivatives small). -/
def catS : Regex → Regex → Regex
  | emp, _ => emp
  | _, emp => emp
  | eps, r => r
  | r, eps => r
  | r₁, r₂ => cat r₁ r₂

/-- Smart alternation. -/
def altS : Regex → Regex → Regex
  | emp, r => r
  | r, emp => r
  | r₁, r₂ => alt r₁ r₂

/-- Brzozowski derivative with respect to one character. -/
def deriv : Regex → Char → Regex
  | emp, _ => emp
  | eps, _ => emp
  | chr c, a => if a = c then eps else emp
  | cls p, a => if p a then eps else emp
  | cat r₁ r₂, a =>
      if nullable r₁ then altS (catS (deriv r₁ a) r₂) (deriv r₂ a)
      else catS (deriv r₁ a) r₂
  | alt r₁ r₂, a => altS (deriv r₁ a) (deriv r₂ a)
  | star r, a => catS (deriv r a) (star r)

/-- Whole-string matching (a `^...$`-anchored JS pattern). -/
def matchWhole (r : Regex) (s : String) : Bool :=
  nullable (s.data.foldl deriv r)

/-- JS `r.test(s)` for an unanchored pattern: some substring matches. -/
def test (r : Regex) (s : String) : Bool :=
  matchWhole (cat (star dotAll) (cat r (star dotAll))) s

/-- A pattern anchored only at the end (`...$`). -/
def testEnd (r : Regex) (s : String) : Bool :=
  matchWhole (cat (star dotAll) r) s

/-- `[a-z]` -/
def lower : Regex := cls (fun c => 'a' ≤ c && c ≤ 'z')

/-- `[a-z0-9-]` -/
def lowerDigitDash : Regex :=
  cls (fun c => ('a' ≤ c && c ≤ 'z') || ('0' ≤ c && c ≤ '9') || c = '-')

/-- `\w` — `[A-Za-z0-9_]` -/
def wordChar : Regex :=
  cls (fun c => ('a' ≤ c && c ≤ 'z') || ('A' ≤ c && c ≤ 'Z') ||
                ('0' ≤ c && c ≤ '9') || c = '_')

/-- `\s` — JS whitespace (the ASCII part). -/
def space : Regex :=
  cls (fun c => c = ' ' || c = '\t' || c = '\n' || c = '\r' ||
                c = '\x0b' || c = '\x0c')

end Regex

end RepoScan

namespace RepoScan.SupplyChain

open RepoScan

/-! ### supplyChainScanner.ts -/

/-- `min3`: `Math.min(a, b, c)` as used in the Levenshtein matrix fill. -/
def min3 (x y z : ℕ) : ℕ := min x (min y z)

/-- The value `matrix[i][j]` defined by the recurrence that
`levenshteinDistance`'s dynamic-programming loops fill in:
`matrix[i] = [i]`, `matrix[0][j] = j`, and for `i, j ≥ 1`
`matrix[i][j] = matrix[i-1][j-1]` when `b.charAt(i-1) === a.charAt(j-1)`,
else `1 + min` of the diagonal, left and upper neighbours. -/
def matrixVal (a b : List Char) : ℕ → ℕ → ℕ
  | 0, j => j
  | i+1, 0 => i+1
  | i+1, j+1 =>
      if b.getD i ' ' = a.getD j ' ' then matrixVal a b i j
      else min3 (matrixVal a b i j + 1)
                (matrixVal a b (i+1) j + 1)
                (matrixVal a b i (j+1) + 1)
termination_by i j => (i, j)

/-- Fill the remainder of row `i` of the matrix (entries `j ≥ 1`), given the
suffix of row `i-1` starting at column `j-1` (`prev`), the entry just
computed to the left (`left`), the character `b.charAt(i-1)` (`bc`) and the
remaining characters `a[j-1..]`. -/
def levFill (bc : Char) : List ℕ → ℕ → List Char → List ℕ
  | _, _, [] => []
  | prev, left, ac :: as' =>
    match prev with
    | [] => []
    | diag :: prevRest =>
      let up := prevRest.headD 0
      let cur := if bc = ac then diag else min3 (diag + 1) (left + 1) (up + 1)
      cur :: levFill bc prevRest cur as'

/-- The outer loop over `b`: starting from row 0 (`[0, 1, …, a.length]`),
produce each next row; returns the final row. -/
def levLoop (a : List Char) : List ℕ → ℕ → List Char → List ℕ
  | prev, _, [] => prev
  | prev, i, bc :: bs' =>
      levLoop a ((i+1) :: levFill bc prev (i+1) a) (i+1) bs'

/-- `levenshteinDistance(a, b)` — row-by-row dynamic programming, returning
`matrix[b.length][a.length]`. -/
def levenshteinDistance (a b : String) : ℕ :=
  (levLoop a.data (List.range (a.data.length + 1)) 0 b.data).getD a.data.length 0

end RepoScan.SupplyChain

namespace RepoScan.SupplyChain

open RepoScan Regex

/-- The curated `popularPackages` table of `checkTyposquatting`:
legitimate name paired with its list of known variant spellings. -/
def popularPackages : List (String × List String) :=
  [ ("react", ["react", "reactjs", "react-js", "react.js"]),
    ("lodash", ["lodash", "lodash-es", "lodash.js", "loadash"]),
    ("axios", ["axios", "axois", "axiom"]),
    ("express", ["express", "expresss", "exress"]),
    ("webpack", ["webpack", "webpak", "web-pack"]),
    ("typescript", ["typescript", "typscript", "type-script"]) ]

/-- The `variants.some(v => …)` body of `checkTyposquatting` for one table
entry: `v === legit`, `depNameLower === legit` and `depNameLower === v` all
return `false`; otherwise the test is `levenshteinDistance(depNameLower, v) <= 1`. -/
def isSuspiciousFor (depNameLower legit : String) (variants : List String) : Bool :=
  variants.any fun v =>
    if v = legit then false
    else if depNameLower = legit then false
    else if depNameLower = v then false
    else levenshteinDistance depNameLower v ≤ 1

/-- `/^@[a-z0-9-]+\/[a-z0-9-]+-official$/` -/
def susPat1 : Regex :=
  cat (chr '@') (cat (plus lowerDigitDash)
    (cat (chr '/') (cat (plus lowerDigitDash) (str "-official"))))

/-- `/^[a-z]+-utils?$/` -/
def susPat2 : Regex := cat (plus lower) (cat (str "-util") (opt (chr 's')))

/-- `/^[a-z]+-helper$/` -/
def susPat3 : Regex := cat (plus lower) (str "-helper")

/-- `/^@types\/[a-z]+-types$/` -/
def susPat4 : Regex := cat (str "@types/") (cat (plus lower) (str "-types"))

/-- The `suspiciousPatterns` list (all four are `^…$`-anchored, so `test`
is whole-string matching). -/
def suspiciousPatterns : List Regex := [susPat1, susPat2, susPat3, susPat4]

/-- The critical typosquatting finding the per-dependency loop pushes (and then
`break`s) for the first table entry whose variant list reports the dependency
as suspicious. -/
def typosquatCritical (depName : String) : List Vulnerability :=
  match popularPackages.find?
      (fun lv => isSuspiciousFor (toLowerCase depName) lv.1 lv.2) with
  | some lv =>
      [{ severity := .critical, type := .dependency,
         description := "Potential typosquatting: " ++ depName ++
           " looks similar to " ++ lv.1,
         location := "package.json",
         details := some "This package name is suspiciously similar to a popular package" }]
  | none => []

/-- The medium finding pushed when `depName` matches one of the
`suspiciousPatterns` (tested against the original, un-lowercased name). -/
def typosquatPattern (depName : String) : List Vulnerability :=
  if suspiciousPatterns.any (fun p => matchWhole p depName) then
    [{ severity := .medium, type := .dependency,
       description := "Suspicious package naming pattern: " ++ depName,
       location := "package.json",
       details := some "Package name follows common typosquatting patterns" }]
  else []

/-- The pure core of `checkTyposquatting`: the findings pushed for the given
dependency names of the parsed `package.json` (the `package.json` presence
check, fetch and JSON parse are the I/O boundary; on their failure the
function pushes nothing). -/
def checkTyposquatting (deps : List String) : List Vulnerability :=
  deps.flatMap fun depName => typosquatCritical depName ++ typosquatPattern depName

end RepoScan.SupplyChain

namespace RepoScan.ConfigScanner

open RepoScan Regex

/-! ### configurationScanner.ts — `scanEnvFiles` -/

/-- `/password|passwd|pwd/i` (transcribed lower-case, applied to the
lower-cased content). -/
def envPat1 : Regex := alt (str "password") (alt (str "passwd") (str "pwd"))

/-- `/api[_-]?key|apikey/i` -/
def envPat2 : Regex :=
  alt (cat (str "api") (cat (opt (cls (fun c => c = '_' || c = '-'))) (str "key")))
      (str "apikey")

/-- `/secret/i` -/
def envPat3 : Regex := str "secret"

/-- `/token/i` -/
def envPat4 : Regex := str "token"

/-- `/aws[_-]?access/i` -/
def envPat5 : Regex :=
  cat (str "aws") (cat (opt (cls (fun c => c = '_' || c = '-'))) (str "access"))

/-- The `secretPatterns` table of `scanEnvFiles` (pattern, name). -/
def secretPatterns : List (Regex × String) :=
  [ (envPat1, "password"), (envPat2, "API key"), (envPat3, "secret"),
    (envPat4, "token"), (envPat5, "AWS credential") ]

/-- `/config\.(js|ts|json|yml|yaml)$/` (end-anchored, unanchored start). -/
def configFilePat : Regex :=
  cat (str "config.")
    (alt (str "js") (alt (str "ts") (alt (str "json") (alt (str "yml") (str "yaml")))))

/-- `/['"]?(?:api[_-]?key|apikey)['"]?\s*[:=]\s*['"]\w{20,}['"]/gi` -/
def hardPat1 : Regex :=
  cat (opt (cls (fun c => c = '\'' || c = '"')))
    (cat (alt (cat (str "api") (cat (opt (cls (fun c => c = '_' || c = '-'))) (str "key")))
              (str "apikey"))
      (cat (opt (cls (fun c => c = '\'' || c = '"')))
        (cat (star space)
          (cat (cls (fun c => c = ':' || c = '='))
            (cat (star space)
              (cat (cls (fun c => c = '\'' || c = '"'))
                (cat (repAtLeast 20 wordChar)
                  (cls (fun c => c = '\'' || c = '"')))))))))

/-- `/['"]?password['"]?\s*[:=]\s*['"]\w+['"]/gi` -/
def hardPat2 : Regex :=
  cat (opt (cls (fun c => c = '\'' || c = '"')))
    (cat (str "password")
      (cat (opt (cls (fun c => c = '\'' || c = '"')))
        (cat (star space)
          (cat (cls (fun c => c = ':' || c = '='))
            (cat (star space)
              (cat (cls (fun c => c = '\'' || c = '"'))
                (cat (plus wordChar)
                  (cls (fun c => c = '\'' || c = '"')))))))))

/-- `/['"]?secret['"]?\s*[:=]\s*['"]\w{20,}['"]/gi` -/
def hardPat3 : Regex :=
  cat (opt (cls (fun c => c = '\'' || c = '"')))
    (cat (str "secret")
      (cat (opt (cls (fun c => c = '\'' || c = '"')))
        (cat (star space)
          (cat (cls (fun c => c = ':' || c = '='))
            (cat (star space)
              (cat (cls (fun c => c = '\'' || c = '"'))
                (cat (repAtLeast 20 wordChar)
                  (cls (fun c => c = '\'' || c = '"')))))))))

/-- The `hardcodedSecrets` table of the config-file loop. -/
def hardcodedSecrets : List Regex := [hardPat1, hardPat2, hardPat3]

/-- Findings the `.env`-content section pushes (one per matching pattern). -/
def envContentFindings (content : String) : List Vulnerability :=
  secretPatterns.flatMap fun pn =>
    if Regex.test pn.1 (toLowerCase content) then
      [{ severity := .critical, type := .configuration,
         description := "Potential " ++ pn.2 ++ " exposed in .env file",
         location := ".env",
         details := some ("Found " ++ pn.2 ++ " reference in committed .env file") }]
    else []

/-- Findings the config-file loop pushes for one file (the inner loop
`break`s after the first matching pattern; the `hardcodedSecrets` patterns
carry the `i` flag, so they are transcribed lower-case and applied to the
lower-cased content). -/
def configFileFindings (fileName : String) (content : Option String) : List Vulnerability :=
  match content with
  | none => []
  | some c =>
      if hardcodedSecrets.any (fun p => Regex.test p (toLowerCase c)) then
        [{ severity := .high, type := .configuration,
           description := "Hardcoded credential in configuration file",
           location := fileName,
           details := some "Configuration contains hardcoded secrets. Use environment variables" }]
      else []

/-- `scanEnvFiles`, with `fetchFile` standing for the content returned by
`fetchFileContent` for a given name/path (`none` on any fetch failure). -/
def scanEnvFiles (contents : List FileEntry) (fetchFile : String → Option String) :
    List Vulnerability :=
  (match contents.find? (fun f => f.name = ".env") with
   | some _ =>
       { severity := .critical, type := .configuration,
         description := "Environment file (.env) committed to repository",
         location := ".env",
         details := some "This file may contain sensitive credentials. Remove it and use .env.example instead" }
       :: (match fetchFile ".env" with
           | some content => envContentFindings content
           | none => [])
   | none => []) ++
  ((contents.filter (fun f =>
      Regex.testEnd configFilePat f.name && !(jsIncludes f.name "test"))).flatMap
    fun f => configFileFindings f.name (fetchFile f.name))

end RepoScan.ConfigScanner

namespace RepoScan.AdvancedPatterns

open RepoScan Regex

/-! ### advancedPatternDetector.ts -/

/-- `getLineNumber(content, index)` =
`content.substring(0, index).split('\n').length`. -/
def getLineNumber (content : String) (index : ℕ) : ℕ :=
  ((content.data.take index).splitOn '\n').length

/-- `/(?:open|read|write).*\(.*(?:req\.query|req\.params|request\.args).*\+.*['"]\//gi`
(transcribed lower-case for the `i` flag). -/
def pathPat1 : Regex :=
  cat (alt (str "open") (alt (str "read") (str "write")))
    (cat (star dot)
      (cat (chr '(')
        (cat (star dot)
          (cat (alt (str "req.query") (alt (str "req.params") (str "request.args")))
            (cat (star dot)
              (cat (chr '+')
                (cat (star dot)
                  (cat (cls (fun c => c = '\'' || c = '"')) (chr '/')))))))))

/-- `/fs\.readFile.*\(.*(?:req\.|request\.).*\)/gi` -/
def pathPat2 : Regex :=
  cat (str "fs.readfile")
    (cat (star dot)
      (cat (chr '(')
        (cat (star dot)
          (cat (alt (str "req.") (str "request."))
            (cat (star dot) (chr ')'))))))

/-- `/path\.join\s*\([^)]*(?:req\.|request\.)/gi` -/
def pathPat3 : Regex :=
  cat (str "path.join")
    (cat (star space)
      (cat (chr '(')
        (cat (star (cls (fun c => c ≠ ')')))
          (alt (str "req.") (str "request.")))))

/-- The `pathTraversalPatterns` list of `detectPathTraversal`. -/
def pathTraversalPatterns : List Regex := [pathPat1, pathPat2, pathPat3]

/-- `detectPathTraversal(content, filename)`: the loop pushes one finding for
the first matching pattern and `break`s; note its `location` is the bare
`filename`, with no line number. -/
def detectPathTraversal (content filename : String) : List Vulnerability :=
  if pathTraversalPatterns.any (fun p => Regex.test p (toLowerCase content)) then
    [{ severity := .high, type := .code_pattern,
       description := "Potential path traversal vulnerability",
       location := filename,
       details := some "User input used in file paths without validation. Sanitize and validate paths" }]
  else []

/-- One entry of the `secretPatterns` table of `detectHardcodedSecrets`
(the regex itself lives in the runtime's engine; only its description and
severity matter for the emitted findings). -/
structure SecretPattern where
  description : String
  severity : Severity
deriving DecidableEq, Repr

/-- The six `secretPatterns` of `detectHardcodedSecrets`, in source order. -/
def secretPatterns : List SecretPattern :=
  [ ⟨"Potential hardcoded API key", .critical⟩,
    ⟨"Potential hardcoded password", .critical⟩,
    ⟨"Potential hardcoded private key", .critical⟩,
    ⟨"Potential hardcoded secret key", .critical⟩,
    ⟨"Potential AWS access key", .critical⟩,
    ⟨"Potential GitHub token", .critical⟩ ]

/-- `detectHardcodedSecrets(content, filename)`, parameterised by the result
of the runtime's `content.matchAll(pattern)` for each of the six patterns:
`matchIdxs` lists, per pattern (in table order), the `match.index` of each
match.  Every match is turned into a finding located at
`filename:getLineNumber(content, index)`. -/
def detectHardcodedSecrets (content filename : String)
    (matchIdxs : List (List ℕ)) : List Vulnerability :=
  (secretPatterns.zip matchIdxs).flatMap fun spIdxs =>
    spIdxs.2.map fun idx =>
      { severity := spIdxs.1.severity, type := .code_pattern,
        description := spIdxs.1.description,
        location := filename ++ ":" ++ toString (getLineNumber content idx),
        details := some "Hardcoded credentials should be moved to environment variables" }

end RepoScan.AdvancedPatterns

namespace RepoScan.GitHubSecurity

open RepoScan

/-! ### part_007 (`scanGitHubSecurity` module) — `checkRepoSettings` -/

/-- A `{ status?: string }` feature object of `security_and_analysis`. -/
structure FeatureStatus where
  status : Option String
deriving DecidableEq, Repr

/-- The `security_and_analysis` object of the repo metadata. -/
structure SecurityAndAnalysis where
  secret_scanning : Option FeatureStatus
  dependabot_security_updates : Option FeatureStatus
deriving DecidableEq, Repr

/-- The slice of repo metadata `checkRepoSettings` reads. -/
structure RepoSettings where
  security_and_analysis : Option SecurityAndAnalysis
deriving DecidableEq, Repr

/-- The finding for `secret_scanning` not enabled. -/
def secretScanningFinding : Vulnerability :=
  { severity := .medium, type := .configuration,
    description := "GitHub secret scanning not enabled",
    location := "GitHub Settings",
    details := some "Enable secret scanning to detect committed secrets" }

/-- The finding for `dependabot_security_updates` not enabled. -/
def dependabotFinding : Vulnerability :=
  { severity := .medium, type := .configuration,
    description := "Dependabot security updates not enabled",
    location := "GitHub Settings",
    details := some "Enable Dependabot to automatically fix security vulnerabilities" }

/-- `checkRepoSettings(repo)`: both checks run only under
`if (repo.security_and_analysis)`; each uses optional chaining
(`secret_scanning?.status !== 'enabled'`). -/
def checkRepoSettings (repo : RepoSettings) : List Vulnerability :=
  match repo.security_and_analysis with
  | none => []
  | some saa =>
      (if ¬ (saa.secret_scanning.bind FeatureStatus.status = some "enabled") then
        [secretScanningFinding]
      else []) ++
      (if ¬ (saa.dependabot_security_updates.bind FeatureStatus.status = some "enabled") then
        [dependabotFinding]
      else [])

/-- The `security_and_analysis.secret_scanning.status` value reachable from
the metadata, if any. -/
def secretScanningStatus (repo : RepoSettings) : Option String :=
  (repo.security_and_analysis.bind SecurityAndAnalysis.secret_scanning).bind
    FeatureStatus.status

end RepoScan.GitHubSecurity

namespace RepoScan

/-- Safety breakdown record (identical shape in all scoring variants). -/
structure SafetyBreakdown where
  total : ℚ
  dependency_risks : ℚ
  code_security : ℚ
  config_hygiene : ℚ
  code_quality : ℚ
  maintenance_posture : ℚ
deriving DecidableEq, Repr

/-- Legitimacy breakdown record. -/
structure LegitimacyBreakdown where
  total : ℚ
  working_evidence : ℚ
  transparency_docs : ℚ
  community_signals : ℚ
  author_reputation : ℚ
  license_compliance : ℚ
deriving DecidableEq, Repr

/-- The `breakdown` object of a scoring result. -/
structure Breakdown where
  safety : SafetyBreakdown
  legitimacy : LegitimacyBreakdown
deriving DecidableEq, Repr

/-- Result of one sub-score function: its return value plus the strings it
pushed onto the shared `risks` and `positives` arrays (in push order). -/
structure ScoreOut where
  score : ℚ
  risks : List String
  positives : List String
deriving DecidableEq, Repr

end RepoScan

namespace RepoScan.ScanRepo

open RepoScan

/-! ### supabase/functions/scan-repo/index.ts — scoring engine -/

/-- `clamp(value, min, max) = Math.max(min, Math.min(max, value))`. -/
def clamp (value lo hi : ℚ) : ℚ := max lo (min hi value)

/-- The final `ScoringResult` of scan-repo (no code-quality metrics field). -/
structure ScoringResult where
  safety_score : ℤ
  legitimacy_score : ℤ
  overall_score : ℤ
  confidence : ℚ
  breakdown : Breakdown
  notes : List String
  risk_factors : List String
  positive_indicators : List String
  vulnerabilities : List Vulnerability
  vulnerability_summary : VulnSummary
deriving DecidableEq, Repr

def scoreDependencyRisks (contents : List FileEntry) : ScoreOut :=
  let depFiles := ["package.json", "requirements.txt", "Cargo.toml", "go.mod", "pom.xml", "build.gradle"]
  let hasDeps := contents.any fun f => depFiles.contains f.name
  let lockFiles := ["package-lock.json", "yarn.lock", "pnpm-lock.yaml", "Cargo.lock", "go.sum", "poetry.lock", "Pipfile.lock"]
  let hasLock := contents.any fun f => lockFiles.contains f.name
  let score1 : ℚ := if hasDeps then 50 + 30 else 50 - 20
  let risks1 : List String := if hasDeps then [] else ["No standard dependency files detected"]
  let pos1 : List String := if hasDeps then ["Has dependency management files"] else []
  let score2 := if hasLock then score1 + 20 else if hasDeps then score1 - 10 else score1
  let risks2 := risks1 ++ (if hasLock then [] else if hasDeps then ["Missing lock file - dependencies not pinned"] else [])
  let pos2 := pos1 ++ (if hasLock then ["Uses lock files for reproducible builds"] else [])
  ⟨clamp score2 0 100, risks2, pos2⟩

def scoreCodeSecurity (contents : List FileEntry) (repo : Repo) : ScoreOut :=
  let dangerousExts : List (String × ℚ × String) :=
    [ (".exe", 30, "Contains Windows executables (.exe)"),
      (".dll", 25, "Contains DLL files"),
      (".so", 20, "Contains shared object files (.so)"),
      (".dylib", 20, "Contains dynamic libraries (.dylib)"),
      (".bin", 25, "Contains binary files (.bin)") ]
  let afterExts : ℚ × List String := dangerousExts.foldl
    (fun acc e =>
      if contents.any (fun f => jsEndsWith (toLowerCase f.name) e.1) then
        (acc.1 - e.2.1, acc.2 ++ [e.2.2])
      else acc)
    (70, [])
  let hasSecurity := contents.any fun f => toLowerCase f.name = "security.md"
  let score2 := if hasSecurity then afterExts.1 + 20 else afterExts.1
  let pos2 : List String := if hasSecurity then ["Has SECURITY.md policy"] else []
  let scriptFiles := contents.filter fun f =>
    [".sh", ".bat", ".cmd", ".ps1"].any fun ext => jsEndsWith f.name ext
  let score3 := if scriptFiles.length > 10 then score2 - 15 else score2
  let risks3 := afterExts.2 ++
    (if scriptFiles.length > 10 then
      ["High number of script files (" ++ toString scriptFiles.length ++ ")"] else [])
  ⟨clamp score3 0 100, risks3, pos2⟩

def scoreConfigHygiene (contents : List FileEntry) : ScoreOut :=
  let hasGitignore := contents.any fun f => f.name = ".gitignore"
  let score1 : ℚ := if hasGitignore then 50 + 30 else 50 - 20
  let risks1 : List String := if hasGitignore then [] else ["Missing .gitignore file"]
  let pos1 : List String := if hasGitignore then ["Has .gitignore file"] else []
  let hasEnvExample := contents.any fun f =>
    [".env.example", ".env.sample", "env.example"].contains f.name
  let score2 := if hasEnvExample then score1 + 20 else score1
  let pos2 := pos1 ++ (if hasEnvExample then ["Provides environment variable template"] else [])
  let hasEnv := contents.any fun f => f.name = ".env"
  let score3 := if hasEnv then score2 - 40 else score2
  let risks3 := risks1 ++ (if hasEnv then ["WARNING: .env file committed (may expose secrets)"] else [])
  let dockerFiles := contents.filter fun f => jsIncludes (toLowerCase f.name) "dockerfile"
  let score4 := if dockerFiles.length > 0 then score3 + 10 else score3
  let pos4 := pos2 ++ (if dockerFiles.length > 0 then ["Has Dockerfile for containerization"] else [])
  ⟨clamp score4 0 100, risks3, pos4⟩

def scoreCodeQuality (contents : List FileEntry) (repo : Repo) : ScoreOut :=
  let hasReadme := contents.any fun f => jsIncludes (toLowerCase f.name) "readme"
  let score1 : ℚ := if hasReadme then 40 + 30 else 40 - 20
  let risks1 : List String := if hasReadme then [] else ["Missing README file"]
  let pos1 : List String := if hasReadme then ["Has README documentation"] else []
  let testIndicators := ["test", "spec", "__tests__", ".test.", ".spec."]
  let hasTests := contents.any fun f =>
    testIndicators.any fun t => jsIncludes (toLowerCase f.name) t
  let score2 := if hasTests then score1 + 20 else score1
  let pos2 := pos1 ++ (if hasTests then ["Includes test files"] else [])
  let risks2 := risks1 ++ (if hasTests then [] else ["No test files detected"])
  let score3 := match repo.license with
    | some _ => score2 + 10
    | none => score2 - 10
  let pos3 := pos2 ++ (match repo.license with
    | some l => ["Licensed: " ++ l.name]
    | none => [])
  let risks3 := risks2 ++ (match repo.license with
    | some _ => []
    | none => ["No license specified"])
  ⟨clamp score3 0 100, risks3, pos3⟩

def scoreMaintenancePosture (commits : List Commit) (repo : Repo) (now : ℚ) : ScoreOut :=
  if repo.archived then
    ⟨0, ["Repository is archived (no longer maintained)"], []⟩
  else
    match commits with
    | [] => ⟨clamp 20 0 100, ["No commit history available"], []⟩
    | c0 :: _ =>
      let recentCommits := commits.filter fun c =>
        (now - c.date) / (1000 * 60 * 60 * 24) ≤ 90
      let score1 : ℚ :=
        if recentCommits.length ≥ 5 then 20 + 40
        else if recentCommits.length > 0 then 20 + 20
        else 20
      let pos1 : List String :=
        if recentCommits.length ≥ 5 then ["Active development (5+ commits in 90 days)"] else []
      let daysSince := (now - c0.date) / (1000 * 60 * 60 * 24)
      let score2 := if daysSince < 30 then score1 + 30
        else if daysSince > 365 then score1 - 20 else score1
      let pos2 := pos1 ++ (if daysSince < 30 then ["Recently updated (last 30 days)"] else [])
      let risks2 : List String :=
        if daysSince < 30 then [] else if daysSince > 365 then ["No commits in over a year"] else []
      let uniqueAuthors := (commits.map Commit.email).dedup.length
      let score3 := if uniqueAuthors ≥ 3 then score2 + 10 else score2
      let pos3 := pos2 ++
        (if uniqueAuthors ≥ 3 then ["Multiple contributors (" ++ toString uniqueAuthors ++ ")"] else [])
      ⟨clamp score3 0 100, risks2, pos3⟩

def scoreWorkingEvidence (contents : List FileEntry) (repo : Repo) (commits : List Commit) : ScoreOut :=
  let lockFiles := ["package-lock.json", "yarn.lock", "pnpm-lock.yaml", "Cargo.lock", "go.sum", "poetry.lock"]
  let hasLock := contents.any fun f => lockFiles.contains f.name
  let score1 : ℚ := if hasLock then 30 + 20 else 30
  let pos1 : List String := if hasLock then ["Reproducible environment with lock files"] else []
  let risks1 : List String := if hasLock then [] else ["No lock file - build may not be reproducible"]
  let hasDocker := contents.any fun f => jsIncludes (toLowerCase f.name) "dockerfile"
  let score2 := if hasDocker then score1 + 15 else score1
  let pos2 := pos1 ++ (if hasDocker then ["Has Dockerfile for containerized builds"] else [])
  let exampleDirs := ["examples", "example", "demo", "demos", "samples"]
  let hasExamples := contents.any fun f =>
    exampleDirs.any fun d => jsIncludes (toLowerCase f.name) d
  let score3 := if hasExamples then score2 + 20 else score2
  let pos3 := pos2 ++ (if hasExamples then ["Includes example code/demos"] else [])
  let risks3 := risks1 ++ (if hasExamples then [] else ["No example code found"])
  let ciFiles := [".github", ".gitlab-ci.yml", ".travis.yml", "azure-pipelines.yml", ".circleci"]
  let hasCI := contents.any fun f => ciFiles.any fun ci => jsIncludes f.name ci
  let score4 := if hasCI then score3 + 15 else score3
  let pos4 := pos3 ++ (if hasCI then ["Has CI/CD configuration"] else [])
  ⟨clamp score4 0 100, risks3, pos4⟩

def scoreTransparency (contents : List FileEntry) (repo : Repo) : ScoreOut :=
  let hasReadme := contents.any fun f => jsIncludes (toLowerCase f.name) "readme"
  let score1 : ℚ := if hasReadme then 20 + 35 else 20 - 20
  let risks1 : List String := if hasReadme then [] else ["No README found"]
  let descTruthy := jsTruthyStr repo.description
  let descLen := (repo.description.getD "").length
  let score2 := if descTruthy && descLen > 30 then score1 + 20 else score1
  let pos2 : List String := if descTruthy && descLen > 30 then ["Has detailed description"] else []
  let risks2 := risks1 ++
    (if descTruthy && descLen > 30 then []
     else if !descTruthy || descLen < 10 then ["Missing or minimal description"] else [])
  let hasContributing := contents.any fun f => toLowerCase f.name = "contributing.md"
  let score3 := if hasContributing then score2 + 15 else score2
  let pos3 := pos2 ++ (if hasContributing then ["Has CONTRIBUTING.md guidelines"] else [])
  let hasChangelog := contents.any fun f => jsIncludes (toLowerCase f.name) "changelog"
  let score4 := if hasChangelog then score3 + 10 else score3
  let pos4 := pos3 ++ (if hasChangelog then ["Maintains a changelog"] else [])
  ⟨clamp score4 0 100, risks2, pos4⟩

def scoreCommunity (repo : Repo) (contributors : List Unit) (lg : ℚ → ℚ) : ScoreOut :=
  let stars := repo.stargazers_count
  let forks := repo.forks_count
  let starScore := min (lg (stars + 1) / 4 * 100) 100
  let score1 : ℚ := 20 + starScore * (0.40 : ℚ)
  let pos1 : List String :=
    if stars > 1000 then ["Highly popular: " ++ toString stars ++ " stars"]
    else if stars > 100 then ["Popular: " ++ toString stars ++ " stars"]
    else []
  let risks1 : List String :=
    if stars > 1000 then [] else if stars > 100 then []
    else if stars < 5 then ["Very low star count"] else []
  let score2 :=
    if contributors.length > 5 then score1 + 25
    else if contributors.length = 1 then score1 + 5
    else score1 + 15
  let pos2 := pos1 ++
    (if contributors.length > 5 then [toString contributors.length ++ "+ contributors"] else [])
  let risks2 := risks1 ++
    (if contributors.length > 5 then []
     else if contributors.length = 1 then ["Single contributor project"] else [])
  let score3 := if forks > 50 then score2 + 15 else score2
  let pos3 := pos2 ++ (if forks > 50 then [toString forks ++ " forks"] else [])
  ⟨clamp score3 0 100, risks2, pos3⟩

def scoreAuthorReputation (owner : Option Owner) (repo : Repo) (now : ℚ) : ScoreOut :=
  match owner with
  | none => ⟨30, [], []⟩
  | some o =>
    let score1 : ℚ := if o.type = "Organization" then 40 + 30 else 40
    let pos1 : List String := if o.type = "Organization" then ["Owned by an organization"] else []
    let accountAge := (now - o.created_at) / (1000 * 60 * 60 * 24)
    let score2 :=
      if accountAge > 730 then score1 + 20
      else if accountAge < 90 then score1 - 10
      else score1 + 10
    let pos2 := pos1 ++ (if accountAge > 730 then ["Well-established account (2+ years)"] else [])
    let risks2 : List String :=
      if accountAge > 730 then [] else if accountAge < 90 then ["Relatively new account"] else []
    let score3 := if o.public_repos > 5 then score2 + 10 else score2
    let pos3 := pos2 ++
      (if o.public_repos > 5 then [toString o.public_repos ++ " public repositories"] else [])
    let risks3 := risks2 ++
      (if o.public_repos > 5 then []
       else if o.public_repos = 1 then ["Only one public repository"] else [])
    ⟨clamp score3 0 100, risks3, pos3⟩

def scoreLicenseCompliance (repo : Repo) : ScoreOut :=
  match repo.license with
  | none => ⟨30, ["No license - unclear usage rights"], []⟩
  | some l =>
    let popularLicenses := ["MIT", "Apache", "GPL", "BSD", "ISC", "Mozilla"]
    let isPopular := popularLicenses.any fun p => jsIncludes l.name p
    let score : ℚ := if isPopular then 70 + 30 else 70 + 10
    ⟨clamp score 0 100, [], ["Licensed: " ++ l.name]⟩

def calculateSafety (data : RepoData) (now : ℚ) :
    SafetyBreakdown × List String × List String :=
  let depRisks := scoreDependencyRisks data.contents
  let codeSec := scoreCodeSecurity data.contents data.repo
  let configHyg := scoreConfigHygiene data.contents
  let codeQual := scoreCodeQuality data.contents data.repo
  let maint := scoreMaintenancePosture data.commits data.repo now
  let total :=
    depRisks.score * (0.30 : ℚ) +
    codeSec.score * (0.30 : ℚ) +
    configHyg.score * (0.15 : ℚ) +
    codeQual.score * (0.15 : ℚ) +
    maint.score * (0.10 : ℚ)
  (⟨total, depRisks.score, codeSec.score, configHyg.score, codeQual.score, maint.score⟩,
   depRisks.risks ++ codeSec.risks ++ configHyg.risks ++ codeQual.risks ++ maint.risks,
   depRisks.positives ++ codeSec.positives ++ configHyg.positives ++ codeQual.positives ++ maint.positives)

def calculateLegitimacy (data : RepoData) (now : ℚ) (lg : ℚ → ℚ) :
    LegitimacyBreakdown × List String × List String :=
  let working := scoreWorkingEvidence data.contents data.repo data.commits
  let transparency := scoreTransparency data.contents data.repo
  let community := scoreCommunity data.repo data.contributors lg
  let author := scoreAuthorReputation data.owner data.repo now
  let license := scoreLicenseCompliance data.repo
  let total :=
    working.score * (0.40 : ℚ) +
    transparency.score * (0.20 : ℚ) +
    community.score * (0.15 : ℚ) +
    author.score * (0.15 : ℚ) +
    license.score * (0.10 : ℚ)
  (⟨total, working.score, transparency.score, community.score, author.score, license.score⟩,
   working.risks ++ transparency.risks ++ community.risks ++ author.risks ++ license.risks,
   working.positives ++ transparency.positives ++ community.positives ++ author.positives ++ license.positives)

def calculateConfidence (data : RepoData)
    (safety : SafetyBreakdown) (legitimacy : LegitimacyBreakdown) : ℚ :=
  -- signalsAttempted is always 5.  `data.repo` is non-null here (handler
  -- guard) and `data.contributors` is always an array (arrays are truthy in
  -- JS even when empty), so those two signals always count as successful.
  let signalsSuccessful : ℚ :=
    1 + (if data.contents.length > 0 then 1 else 0)
      + (if data.commits.length > 0 then 1 else 0)
      + 1
      + (if data.owner.isSome then 1 else 0)
  let dataQuality := signalsSuccessful / 5
  let avgScore := (safety.total + legitimacy.total) / 2
  let scoreConfidence : ℚ := if avgScore > 30 then 0.8 else 0.5
  toFixed2 ((0.6 : ℚ) * dataQuality + (0.4 : ℚ) * scoreConfidence)

def scoreRepository (data : RepoData) (vulnerabilities : List Vulnerability)
    (vulnerabilitySummary : VulnSummary) (now : ℚ) (lg : ℚ → ℚ) : ScoringResult :=
  let riskFactors0 : List String :=
    (if vulnerabilitySummary.critical_count > 0 then
      ["CRITICAL: " ++ toString vulnerabilitySummary.critical_count ++ " critical vulnerabilities found"]
    else []) ++
    (if vulnerabilitySummary.high_count > 0 then
      [toString vulnerabilitySummary.high_count ++ " high-severity vulnerabilities found"]
    else [])
  let safety := calculateSafety data now
  let legitimacy := calculateLegitimacy data now lg
  let safety_score := jsRound safety.1.total
  let legitimacy_score := jsRound legitimacy.1.total
  let overall_score := jsRound ((0.45 : ℚ) * safety_score + (0.55 : ℚ) * legitimacy_score)
  let confidence := calculateConfidence data safety.1 legitimacy.1
  { safety_score := safety_score,
    legitimacy_score := legitimacy_score,
    overall_score := overall_score,
    confidence := confidence,
    breakdown := ⟨safety.1, legitimacy.1⟩,
    notes := [],
    risk_factors := riskFactors0 ++ safety.2.1 ++ legitimacy.2.1,
    positive_indicators := safety.2.2 ++ legitimacy.2.2,
    vulnerabilities := vulnerabilities,
    vulnerability_summary := vulnerabilitySummary }

end RepoScan.ScanRepo

namespace RepoScan.ScanRepoQuality

open RepoScan

/-! ### unnamed part_009 — the scoring-engine variant with code-quality
metrics (same safety sub-scores as scan-repo except maintenance; different
legitimacy sub-scores and weights 0.25/0.20/0.25/0.20/0.10). -/

/-- `clamp(value, min, max) = Math.min(Math.max(value, min), max)`. -/
def clamp (value lo hi : ℚ) : ℚ := min (max value lo) hi

/-- part_009's `ScoringResult` (includes `code_quality_metrics`). -/
structure ScoringResult where
  safety_score : ℤ
  legitimacy_score : ℤ
  overall_score : ℤ
  confidence : ℚ
  breakdown : Breakdown
  notes : List String
  risk_factors : List String
  positive_indicators : List String
  vulnerabilities : List Vulnerability
  vulnerability_summary : VulnSummary
  code_quality_metrics : CodeQualityMetrics
deriving DecidableEq, Repr

def scoreDependencyRisks (contents : List FileEntry) : ScoreOut :=
  let depFiles := ["package.json", "requirements.txt", "Cargo.toml", "go.mod", "pom.xml", "build.gradle"]
  let hasDeps := contents.any fun f => depFiles.contains f.name
  let lockFiles := ["package-lock.json", "yarn.lock", "pnpm-lock.yaml", "Cargo.lock", "go.sum", "poetry.lock", "Pipfile.lock"]
  let hasLock := contents.any fun f => lockFiles.contains f.name
  let score1 : ℚ := if hasDeps then 50 + 30 else 50 - 20
  let risks1 : List String := if hasDeps then [] else ["No standard dependency files detected"]
  let pos1 : List String := if hasDeps then ["Has dependency management files"] else []
  let score2 := if hasLock then score1 + 20 else if hasDeps then score1 - 10 else score1
  let risks2 := risks1 ++ (if hasLock then [] else if hasDeps then ["Missing lock file - dependencies not pinned"] else [])
  let pos2 := pos1 ++ (if hasLock then ["Uses lock files for reproducible builds"] else [])
  ⟨clamp score2 0 100, risks2, pos2⟩

def scoreCodeSecurity (contents : List FileEntry) (repo : Repo) : ScoreOut :=
  let dangerousExts : List (String × ℚ × String) :=
    [ (".exe", 30, "Contains Windows executables (.exe)"),
      (".dll", 25, "Contains DLL files"),
      (".so", 20, "Contains shared object files (.so)"),
      (".dylib", 20, "Contains dynamic libraries (.dylib)"),
      (".bin", 25, "Contains binary files (.bin)") ]
  let afterExts : ℚ × List String := dangerousExts.foldl
    (fun acc e =>
      if contents.any (fun f => jsEndsWith (toLowerCase f.name) e.1) then
        (acc.1 - e.2.1, acc.2 ++ [e.2.2])
      else acc)
    (70, [])
  let hasSecurity := contents.any fun f => toLowerCase f.name = "security.md"
  let score2 := if hasSecurity then afterExts.1 + 20 else afterExts.1
  let pos2 : List String := if hasSecurity then ["Has SECURITY.md policy"] else []
  let scriptFiles := contents.filter fun f =>
    [".sh", ".bat", ".cmd", ".ps1"].any fun ext => jsEndsWith f.name ext
  let score3 := if scriptFiles.length > 10 then score2 - 15 else score2
  let risks3 := afterExts.2 ++
    (if scriptFiles.length > 10 then
      ["High number of script files (" ++ toString scriptFiles.length ++ ")"] else [])
  ⟨clamp score3 0 100, risks3, pos2⟩

def scoreConfigHygiene (contents : List FileEntry) : ScoreOut :=
  let hasGitignore := contents.any fun f => f.name = ".gitignore"
  let score1 : ℚ := if hasGitignore then 50 + 30 else 50 - 20
  let risks1 : List String := if hasGitignore then [] else ["Missing .gitignore file"]
  let pos1 : List String := if hasGitignore then ["Has .gitignore file"] else []
  let hasEnvExample := contents.any fun f =>
    [".env.example", ".env.sample", "env.example"].contains f.name
  let score2 := if hasEnvExample then score1 + 20 else score1
  let pos2 := pos1 ++ (if hasEnvExample then ["Provides environment variable template"] else [])
  let hasEnv := contents.any fun f => f.name = ".env"
  let score3 := if hasEnv then score2 - 40 else score2
  let risks3 := risks1 ++ (if hasEnv then ["WARNING: .env file committed (may expose secrets)"] else [])
  let dockerFiles := contents.filter fun f => jsIncludes (toLowerCase f.name) "dockerfile"
  let score4 := if dockerFiles.length > 0 then score3 + 10 else score3
  let pos4 := pos2 ++ (if dockerFiles.length > 0 then ["Has Dockerfile for containerization"] else [])
  ⟨clamp score4 0 100, risks3, pos4⟩

def scoreCodeQuality (contents : List FileEntry) (repo : Repo) : ScoreOut :=
  let hasReadme := contents.any fun f => jsIncludes (toLowerCase f.name) "readme"
  let score1 : ℚ := if hasReadme then 40 + 30 else 40 - 20
  let risks1 : List String := if hasReadme then [] else ["Missing README file"]
  let pos1 : List String := if hasReadme then ["Has README documentation"] else []
  let testIndicators := ["test", "spec", "__tests__", ".test.", ".spec."]
  let hasTests := contents.any fun f =>
    testIndicators.any fun t => jsIncludes (toLowerCase f.name) t
  let score2 := if hasTests then score1 + 20 else score1
  let pos2 := pos1 ++ (if hasTests then ["Includes test files"] else [])
  let risks2 := risks1 ++ (if hasTests then [] else ["No test files detected"])
  let score3 := match repo.license with
    | some _ => score2 + 10
    | none => score2 - 10
  let pos3 := pos2 ++ (match repo.license with
    | some l => ["Licensed: " ++ l.name]
    | none => [])
  let risks3 := risks2 ++ (match repo.license with
    | some _ => []
    | none => ["No license specified"])
  ⟨clamp score3 0 100, risks3, pos3⟩

def scoreMaintenancePosture (commits : List Commit) (repo : Repo) (now : ℚ) : ScoreOut :=
  if repo.archived then
    ⟨0, ["Repository is archived (no longer maintained)"], []⟩
  else
    let afterCommits : ℚ × List String × List String :=
      match commits with
      | [] => (20, [], [])
      | c0 :: _ =>
        let recentCommits := commits.filter fun c =>
          (now - c.date) / (1000 * 60 * 60 * 24) ≤ 90
        let score1 : ℚ :=
          if recentCommits.length ≥ 5 then 20 + 40
          else if recentCommits.length > 0 then 20 + 20
          else 20
        let pos1 : List String :=
          if recentCommits.length ≥ 5 then ["Active development (5+ commits in 90 days)"] else []
        let daysSince := (now - c0.date) / (1000 * 60 * 60 * 24)
        let score2 := if daysSince < 30 then score1 + 30
          else if daysSince > 365 then score1 - 20 else score1
        let pos2 := pos1 ++ (if daysSince < 30 then ["Recently updated (last 30 days)"] else [])
        let risks2 : List String :=
          if daysSince < 30 then [] else if daysSince > 365 then ["No commits in over a year"] else []
        let uniqueAuthors := (commits.map Commit.email).dedup.length
        let score3 := if uniqueAuthors ≥ 3 then score2 + 10 else score2
        let pos3 := pos2 ++
          (if uniqueAuthors ≥ 3 then ["Multiple contributors (" ++ toString uniqueAuthors ++ ")"] else [])
        (score3, risks2, pos3)
    let score4 := if repo.has_issues && !repo.disabled then afterCommits.1 + 5 else afterCommits.1
    ⟨clamp score4 0 100, afterCommits.2.1, afterCommits.2.2⟩

def scoreWorkingEvidence (contents : List FileEntry) (commits : List Commit) : ScoreOut :=
  let srcDirs := ["src", "lib", "app", "core", "components"]
  let hasSrcDir := contents.any fun f =>
    f.type = "dir" && srcDirs.contains (toLowerCase f.name)
  let score1 : ℚ := if hasSrcDir then 30 + 30 else 30
  let pos1 : List String := if hasSrcDir then ["Has organized source code structure"] else []
  let mainFiles := ["index.js", "index.ts", "main.py", "main.rs", "main.go", "app.js", "server.js"]
  let hasMain := contents.any fun f => mainFiles.contains (toLowerCase f.name)
  let score2 := if hasMain then score1 + 20 else score1
  let pos2 := pos1 ++ (if hasMain then ["Has entry point file"] else [])
  let score3 :=
    if commits.length ≥ 10 then score2 + 20
    else if commits.length < 3 then score2 - 20
    else score2
  let pos3 := pos2 ++ (if commits.length ≥ 10 then ["Has substantial commit history"] else [])
  let risks3 : List String :=
    if commits.length ≥ 10 then []
    else if commits.length < 3 then ["Very few commits - may be incomplete"] else []
  ⟨clamp score3 0 100, risks3, pos3⟩

def scoreTransparency (contents : List FileEntry) (repo : Repo) : ScoreOut :=
  let hasReadme := contents.any fun f => jsStartsWith (toLowerCase f.name) "readme"
  let score1 : ℚ := if hasReadme then 30 + 30 else 30 - 30
  let risks1 : List String := if hasReadme then [] else ["No README documentation"]
  let hasChangelog := contents.any fun f =>
    jsIncludes (toLowerCase f.name) "changelog" || jsIncludes (toLowerCase f.name) "history"
  let score2 := if hasChangelog then score1 + 15 else score1
  let pos2 : List String := if hasChangelog then ["Maintains changelog"] else []
  let hasContributing := contents.any fun f => jsIncludes (toLowerCase f.name) "contributing"
  let score3 := if hasContributing then score2 + 10 else score2
  let pos3 := pos2 ++ (if hasContributing then ["Has contribution guidelines"] else [])
  let descTruthy := jsTruthyStr repo.description
  let descLen := (repo.description.getD "").length
  let score4 := if descTruthy && descLen > 10 then score3 + 15 else score3 - 10
  let risks4 := risks1 ++ (if descTruthy && descLen > 10 then [] else ["No repository description"])
  ⟨clamp score4 0 100, risks4, pos3⟩

def scoreCommunitySignals (repo : Repo) : ScoreOut :=
  let score1 : ℚ :=
    if repo.stargazers_count > 1000 then 0 + 40
    else if repo.stargazers_count > 100 then 0 + 30
    else if repo.stargazers_count > 10 then 0 + 15
    else 0 + 5
  let pos1 : List String :=
    if repo.stargazers_count > 1000 then
      ["Highly starred (" ++ toString repo.stargazers_count ++ " stars)"]
    else if repo.stargazers_count > 100 then
      ["Well-received (" ++ toString repo.stargazers_count ++ " stars)"]
    else []
  let score2 :=
    if repo.forks_count > 50 then score1 + 20
    else if repo.forks_count > 10 then score1 + 10
    else score1
  let pos2 := pos1 ++
    (if repo.forks_count > 50 then
      ["Active community (" ++ toString repo.forks_count ++ " forks)"] else [])
  let score3 :=
    if repo.watchers_count > 20 then score2 + 15
    else if repo.watchers_count > 5 then score2 + 8
    else score2
  let score4 :=
    if repo.open_issues_count > 0 && repo.open_issues_count < 50 then score3 + 10
    else if repo.open_issues_count ≥ 50 then score3 + 5
    else score3
  let risks4 : List String :=
    if repo.open_issues_count > 0 && repo.open_issues_count < 50 then []
    else if repo.open_issues_count ≥ 50 then
      ["High number of open issues (" ++ toString repo.open_issues_count ++ ")"]
    else []
  let score5 := if repo.has_discussions then score4 + 5 else score4
  let risks5 := risks4 ++
    (if repo.stargazers_count = 0 && repo.forks_count = 0 then
      ["No community engagement (0 stars, 0 forks)"] else [])
  ⟨clamp score5 0 100, risks5, pos2⟩

def scoreAuthorReputation (owner : Option Owner) (contributors : List Unit) (now : ℚ) : ScoreOut :=
  let afterOwner : ℚ × List String × List String :=
    match owner with
    | none => (20, [], [])
    | some o =>
      let score1 : ℚ :=
        if o.public_repos > 20 then 20 + 25
        else if o.public_repos > 5 then 20 + 15
        else 20
      let pos1 : List String :=
        if o.public_repos > 20 then ["Author has substantial GitHub presence"] else []
      let score2 :=
        if o.followers > 100 then score1 + 20
        else if o.followers > 20 then score1 + 10
        else score1
      let pos2 := pos1 ++
        (if o.followers > 100 then
          ["Author has strong reputation (" ++ toString o.followers ++ " followers)"] else [])
      let accountAgeYears := (now - o.created_at) / (1000 * 60 * 60 * 24 * 365)
      let score3 :=
        if accountAgeYears > 3 then score2 + 15
        else if accountAgeYears < 0.25 then score2 - 15
        else score2
      let pos3 := pos2 ++ (if accountAgeYears > 3 then ["Established GitHub account"] else [])
      let risks3 : List String :=
        if accountAgeYears > 3 then []
        else if accountAgeYears < 0.25 then ["Very new GitHub account"] else []
      let score4 := if o.company || o.blog then score3 + 10 else score3
      (score4, risks3, pos3)
  let score5 := if contributors.length > 5 then afterOwner.1 + 10 else afterOwner.1
  let pos5 := afterOwner.2.2 ++ (if contributors.length > 5 then ["Multiple contributors"] else [])
  ⟨clamp score5 0 100, afterOwner.2.1, pos5⟩

def scoreLicenseCompliance (repo : Repo) : ScoreOut :=
  match repo.license with
  | none => ⟨clamp 30 0 100, ["No license specified"], []⟩
  | some l =>
    let licenseName := toLowerCase l.name
    if jsIncludes licenseName "mit" || jsIncludes licenseName "apache" ||
       jsIncludes licenseName "bsd" then
      ⟨clamp 100 0 100, [], ["Permissive license: " ++ l.name]⟩
    else if jsIncludes licenseName "gpl" then
      ⟨clamp 70 0 100, [], ["Open source license: " ++ l.name]⟩
    else
      ⟨clamp 50 0 100, [], []⟩

def calculateSafety (data : RepoData) (now : ℚ) :
    SafetyBreakdown × List String × List String :=
  let depRisks := scoreDependencyRisks data.contents
  let codeSec := scoreCodeSecurity data.contents data.repo
  let configHyg := scoreConfigHygiene data.contents
  let codeQual := scoreCodeQuality data.contents data.repo
  let maint := scoreMaintenancePosture data.commits data.repo now
  let total :=
    depRisks.score * (0.30 : ℚ) +
    codeSec.score * (0.30 : ℚ) +
    configHyg.score * (0.15 : ℚ) +
    codeQual.score * (0.15 : ℚ) +
    maint.score * (0.10 : ℚ)
  (⟨total, depRisks.score, codeSec.score, configHyg.score, codeQual.score, maint.score⟩,
   depRisks.risks ++ codeSec.risks ++ configHyg.risks ++ codeQual.risks ++ maint.risks,
   depRisks.positives ++ codeSec.positives ++ configHyg.positives ++ codeQual.positives ++ maint.positives)

def calculateLegitimacy (data : RepoData) (now : ℚ) :
    LegitimacyBreakdown × List String × List String :=
  let workingEvidence := scoreWorkingEvidence data.contents data.commits
  let transpDocs := scoreTransparency data.contents data.repo
  let commSignals := scoreCommunitySignals data.repo
  let authorRep := scoreAuthorReputation data.owner data.contributors now
  let licenseComp := scoreLicenseCompliance data.repo
  let total :=
    workingEvidence.score * (0.25 : ℚ) +
    transpDocs.score * (0.20 : ℚ) +
    commSignals.score * (0.25 : ℚ) +
    authorRep.score * (0.20 : ℚ) +
    licenseComp.score * (0.10 : ℚ)
  (⟨total, workingEvidence.score, transpDocs.score, commSignals.score, authorRep.score, licenseComp.score⟩,
   workingEvidence.risks ++ transpDocs.risks ++ commSignals.risks ++ authorRep.risks ++ licenseComp.risks,
   workingEvidence.positives ++ transpDocs.positives ++ commSignals.positives ++ authorRep.positives ++ licenseComp.positives)

def calculateConfidence (data : RepoData)
    (safety : SafetyBreakdown) (legitimacy : LegitimacyBreakdown) : ℚ :=
  let c1 : ℚ := if data.commits.length ≥ 20 then 70 + 10 else 70
  let c2 := if data.repo.stargazers_count > 50 then c1 + 10 else c1
  let c3 := if data.contributors.length > 3 then c2 + 5 else c2
  let c4 := if data.contents.any (fun f => jsIncludes (toLowerCase f.name) "test") then c3 + 5 else c3
  clamp c4 0 100

def scoreRepository (data : RepoData) (vulnerabilities : List Vulnerability)
    (vulnerabilitySummary : VulnSummary) (codeQualityMetrics : CodeQualityMetrics)
    (now : ℚ) : ScoringResult :=
  let riskFactors0 : List String :=
    (if vulnerabilitySummary.critical_count > 0 then
      ["CRITICAL: " ++ toString vulnerabilitySummary.critical_count ++ " critical vulnerabilities found"]
    else []) ++
    (if vulnerabilitySummary.high_count > 0 then
      [toString vulnerabilitySummary.high_count ++ " high-severity vulnerabilities found"]
    else [])
  let safety := calculateSafety data now
  let legitimacy := calculateLegitimacy data now
  let safety_score := jsRound safety.1.total
  let legitimacy_score := jsRound legitimacy.1.total
  let overall_score := jsRound ((0.45 : ℚ) * safety_score + (0.55 : ℚ) * legitimacy_score)
  let confidence := calculateConfidence data safety.1 legitimacy.1
  let qualityRisks : List String :=
    (if codeQualityMetrics.quality_score < 50 then
      ["Low code quality score: " ++ toString codeQualityMetrics.quality_score]
    else []) ++
    (codeQualityMetrics.issues.take 3).map (fun issue => "Quality: " ++ issue)
  { safety_score := safety_score,
    legitimacy_score := legitimacy_score,
    overall_score := overall_score,
    confidence := confidence,
    breakdown := ⟨safety.1, legitimacy.1⟩,
    notes := [],
    risk_factors := riskFactors0 ++ safety.2.1 ++ legitimacy.2.1 ++ qualityRisks,
    positive_indicators := safety.2.2 ++ legitimacy.2.2,
    vulnerabilities := vulnerabilities,
    vulnerability_summary := vulnerabilitySummary,
    code_quality_metrics := codeQualityMetrics }

end RepoScan.ScanRepoQuality

namespace RepoScan.ScanRepoBundled

open RepoScan

/-! ### supabase/functions/scan-repo-bundled/index.ts — the self-contained
variant; scoring is assembled inline in the request handler. -/

/-- `clamp(value, min, max) = Math.min(Math.max(value, min), max)`. -/
def clamp (value lo hi : ℚ) : ℚ := min (max value lo) hi

/-- The `scoringResult` object the bundled handler builds. -/
structure ScoringResult where
  safety_score : ℤ
  legitimacy_score : ℤ
  overall_score : ℤ
  confidence : ℚ
  breakdown : Breakdown
  notes : List String
  risk_factors : List String
  positive_indicators : List String
  vulnerabilities : List Vulnerability
  vulnerability_summary : VulnSummary
  code_quality_metrics : CodeQualityMetrics
deriving DecidableEq, Repr

/-- The inline `vulnerabilitySummary` computation of the bundled handler
(filter-and-count per severity and per type). -/
def vulnerabilitySummary (vulnerabilities : List Vulnerability) : VulnSummary :=
  { total_count := vulnerabilities.length,
    critical_count := (vulnerabilities.filter (fun v => v.severity = .critical)).length,
    high_count := (vulnerabilities.filter (fun v => v.severity = .high)).length,
    medium_count := (vulnerabilities.filter (fun v => v.severity = .medium)).length,
    low_count := (vulnerabilities.filter (fun v => v.severity = .low)).length,
    by_type :=
      { dependency := (vulnerabilities.filter (fun v => v.type = .dependency)).length,
        code_pattern := (vulnerabilities.filter (fun v => v.type = .code_pattern)).length,
        configuration := (vulnerabilities.filter (fun v => v.type = .configuration)).length } }

def scoreDependencyRisks (contents : List FileEntry) : ScoreOut :=
  let depFiles := ["package.json", "requirements.txt", "Cargo.toml", "go.mod", "pom.xml", "build.gradle"]
  let hasDeps := contents.any fun f => depFiles.contains f.name
  let lockFiles := ["package-lock.json", "yarn.lock", "pnpm-lock.yaml", "Cargo.lock", "go.sum", "poetry.lock", "Pipfile.lock"]
  let hasLock := contents.any fun f => lockFiles.contains f.name
  let score1 : ℚ := if hasDeps then 50 + 30 else 50 - 20
  let risks1 : List String := if hasDeps then [] else ["No standard dependency files detected"]
  let pos1 : List String := if hasDeps then ["Has dependency management files"] else []
  let score2 := if hasLock then score1 + 20 else if hasDeps then score1 - 10 else score1
  let risks2 := risks1 ++ (if hasLock then [] else if hasDeps then ["Missing lock file - dependencies not pinned"] else [])
  let pos2 := pos1 ++ (if hasLock then ["Uses lock files for reproducible builds"] else [])
  ⟨clamp score2 0 100, risks2, pos2⟩

def scoreCodeSecurity (contents : List FileEntry) (repo : Repo) : ScoreOut :=
  let dangerousExts : List (String × ℚ × String) :=
    [ (".exe", 30, "Contains Windows executables (.exe)"),
      (".dll", 25, "Contains DLL files"),
      (".so", 20, "Contains shared object files (.so)"),
      (".dylib", 20, "Contains dynamic libraries (.dylib)"),
      (".bin", 25, "Contains binary files (.bin)") ]
  let afterExts : ℚ × List String := dangerousExts.foldl
    (fun acc e =>
      if contents.any (fun f => jsEndsWith (toLowerCase f.name) e.1) then
        (acc.1 - e.2.1, acc.2 ++ [e.2.2])
      else acc)
    (70, [])
  let hasSecurity := contents.any fun f => toLowerCase f.name = "security.md"
  let score2 := if hasSecurity then afterExts.1 + 20 else afterExts.1
  let pos2 : List String := if hasSecurity then ["Has SECURITY.md policy"] else []
  ⟨clamp score2 0 100, afterExts.2, pos2⟩

def scoreConfigHygiene (contents : List FileEntry) : ScoreOut :=
  let hasGitignore := contents.any fun f => f.name = ".gitignore"
  let score1 : ℚ := if hasGitignore then 50 + 30 else 50 - 20
  let risks1 : List String := if hasGitignore then [] else ["Missing .gitignore file"]
  let pos1 : List String := if hasGitignore then ["Has .gitignore file"] else []
  let hasEnv := contents.any fun f => f.name = ".env"
  let score2 := if hasEnv then score1 - 40 else score1
  let risks2 := risks1 ++ (if hasEnv then ["WARNING: .env file committed (may expose secrets)"] else [])
  ⟨clamp score2 0 100, risks2, pos1⟩

def scoreCodeQuality (contents : List FileEntry) (repo : Repo) : ScoreOut :=
  let hasReadme := contents.any fun f => jsIncludes (toLowerCase f.name) "readme"
  let score1 : ℚ := if hasReadme then 40 + 30 else 40 - 20
  let risks1 : List String := if hasReadme then [] else ["Missing README file"]
  let pos1 : List String := if hasReadme then ["Has README documentation"] else []
  let testIndicators := ["test", "spec", "__tests__", ".test.", ".spec."]
  let hasTests := contents.any fun f =>
    testIndicators.any fun t => jsIncludes (toLowerCase f.name) t
  let score2 := if hasTests then score1 + 20 else score1
  let pos2 := pos1 ++ (if hasTests then ["Includes test files"] else [])
  let score3 := match repo.license with
    | some _ => score2 + 10
    | none => score2 - 10
  let pos3 := pos2 ++ (match repo.license with
    | some l => ["Licensed: " ++ l.name]
    | none => [])
  let risks3 := risks1 ++ (match repo.license with
    | some _ => []
    | none => ["No license specified"])
  ⟨clamp score3 0 100, risks3, pos3⟩

def scoreMaintenancePosture (commits : List Commit) (repo : Repo) (now : ℚ) : ScoreOut :=
  if repo.archived then
    ⟨0, ["Repository is archived (no longer maintained)"], []⟩
  else
    match commits with
    | [] => ⟨clamp 20 0 100, [], []⟩
    | c0 :: _ =>
      let recentCommits := commits.filter fun c =>
        (now - c.date) / (1000 * 60 * 60 * 24) ≤ 90
      let score1 : ℚ :=
        if recentCommits.length ≥ 5 then 20 + 40
        else if recentCommits.length > 0 then 20 + 20
        else 20
      let pos1 : List String :=
        if recentCommits.length ≥ 5 then ["Active development (5+ commits in 90 days)"] else []
      let daysSince := (now - c0.date) / (1000 * 60 * 60 * 24)
      let score2 := if daysSince < 30 then score1 + 30
        else if daysSince > 365 then score1 - 20 else score1
      let pos2 := pos1 ++ (if daysSince < 30 then ["Recently updated (last 30 days)"] else [])
      let risks2 : List String :=
        if daysSince < 30 then [] else if daysSince > 365 then ["No commits in over a year"] else []
      ⟨clamp score2 0 100, risks2, pos2⟩

def scoreWorkingEvidence (contents : List FileEntry) (commits : List Commit) : ScoreOut :=
  let srcDirs := ["src", "lib", "app", "core", "components"]
  let hasSrcDir := contents.any fun f =>
    f.type = "dir" && srcDirs.contains (toLowerCase f.name)
  let score1 : ℚ := if hasSrcDir then 30 + 30 else 30
  let pos1 : List String := if hasSrcDir then ["Has organized source code structure"] else []
  let score2 :=
    if commits.length ≥ 10 then score1 + 20
    else if commits.length < 3 then score1 - 20
    else score1
  let pos2 := pos1 ++ (if commits.length ≥ 10 then ["Has substantial commit history"] else [])
  let risks2 : List String :=
    if commits.length ≥ 10 then []
    else if commits.length < 3 then ["Very few commits - may be incomplete"] else []
  ⟨clamp score2 0 100, risks2, pos2⟩

def scoreTransparency (contents : List FileEntry) (repo : Repo) : ScoreOut :=
  let hasReadme := contents.any fun f => jsStartsWith (toLowerCase f.name) "readme"
  let score1 : ℚ := if hasReadme then 30 + 30 else 30 - 30
  let risks1 : List String := if hasReadme then [] else ["No README documentation"]
  let descTruthy := jsTruthyStr repo.description
  let descLen := (repo.description.getD "").length
  let score2 := if descTruthy && descLen > 10 then score1 + 15 else score1 - 10
  let risks2 := risks1 ++ (if descTruthy && descLen > 10 then [] else ["No repository description"])
  ⟨clamp score2 0 100, risks2, []⟩

def scoreCommunitySignals (repo : Repo) : ScoreOut :=
  let score1 : ℚ :=
    if repo.stargazers_count > 1000 then 0 + 40
    else if repo.stargazers_count > 100 then 0 + 30
    else if repo.stargazers_count > 10 then 0 + 15
    else 0 + 5
  let pos1 : List String :=
    if repo.stargazers_count > 1000 then
      ["Highly starred (" ++ toString repo.stargazers_count ++ " stars)"]
    else if repo.stargazers_count > 100 then
      ["Well-received (" ++ toString repo.stargazers_count ++ " stars)"]
    else []
  let score2 :=
    if repo.forks_count > 50 then score1 + 20
    else if repo.forks_count > 10 then score1 + 10
    else score1
  let pos2 := pos1 ++
    (if repo.forks_count > 50 then
      ["Active community (" ++ toString repo.forks_count ++ " forks)"] else [])
  let risks2 : List String :=
    if repo.stargazers_count = 0 && repo.forks_count = 0 then
      ["No community engagement (0 stars, 0 forks)"] else []
  ⟨clamp score2 0 100, risks2, pos2⟩

def scoreAuthorReputation (owner : Option Owner) (contributors : List Unit) (now : ℚ) : ScoreOut :=
  let afterOwner : ℚ × List String × List String :=
    match owner with
    | none => (20, [], [])
    | some o =>
      let score1 : ℚ :=
        if o.public_repos > 20 then 20 + 25
        else if o.public_repos > 5 then 20 + 15
        else 20
      let pos1 : List String :=
        if o.public_repos > 20 then ["Author has substantial GitHub presence"] else []
      let score2 :=
        if o.followers > 100 then score1 + 20
        else if o.followers > 20 then score1 + 10
        else score1
      let pos2 := pos1 ++
        (if o.followers > 100 then
          ["Author has strong reputation (" ++ toString o.followers ++ " followers)"] else [])
      let accountAgeYears := (now - o.created_at) / (1000 * 60 * 60 * 24 * 365)
      let score3 :=
        if accountAgeYears > 3 then score2 + 15
        else if accountAgeYears < 0.25 then score2 - 15
        else score2
      let pos3 := pos2 ++ (if accountAgeYears > 3 then ["Established GitHub account"] else [])
      let risks3 : List String :=
        if accountAgeYears > 3 then []
        else if accountAgeYears < 0.25 then ["Very new GitHub account"] else []
      (score3, risks3, pos3)
  ⟨clamp afterOwner.1 0 100, afterOwner.2.1, afterOwner.2.2⟩

def scoreLicenseCompliance (repo : Repo) : ScoreOut :=
  match repo.license with
  | none => ⟨clamp 30 0 100, ["No license specified"], []⟩
  | some l =>
    let licenseName := toLowerCase l.name
    if jsIncludes licenseName "mit" || jsIncludes licenseName "apache" ||
       jsIncludes licenseName "bsd" then
      ⟨clamp 100 0 100, [], ["Permissive license: " ++ l.name]⟩
    else if jsIncludes licenseName "gpl" then
      ⟨clamp 70 0 100, [], ["Open source license: " ++ l.name]⟩
    else
      ⟨clamp 50 0 100, [], []⟩

def calculateSafety (data : RepoData) (now : ℚ) :
    SafetyBreakdown × List String × List String :=
  let depRisks := scoreDependencyRisks data.contents
  let codeSec := scoreCodeSecurity data.contents data.repo
  let configHyg := scoreConfigHygiene data.contents
  let codeQual := scoreCodeQuality data.contents data.repo
  let maint := scoreMaintenancePosture data.commits data.repo now
  let total :=
    depRisks.score * (0.30 : ℚ) +
    codeSec.score * (0.30 : ℚ) +
    configHyg.score * (0.15 : ℚ) +
    codeQual.score * (0.15 : ℚ) +
    maint.score * (0.10 : ℚ)
  (⟨total, depRisks.score, codeSec.score, configHyg.score, codeQual.score, maint.score⟩,
   depRisks.risks ++ codeSec.risks ++ configHyg.risks ++ codeQual.risks ++ maint.risks,
   depRisks.positives ++ codeSec.positives ++ configHyg.positives ++ codeQual.positives ++ maint.positives)

def calculateLegitimacy (data : RepoData) (now : ℚ) :
    LegitimacyBreakdown × List String × List String :=
  let workingEvidence := scoreWorkingEvidence data.contents data.commits
  let transpDocs := scoreTransparency data.contents data.repo
  let commSignals := scoreCommunitySignals data.repo
  let authorRep := scoreAuthorReputation data.owner data.contributors now
  let licenseComp := scoreLicenseCompliance data.repo
  let total :=
    workingEvidence.score * (0.25 : ℚ) +
    transpDocs.score * (0.20 : ℚ) +
    commSignals.score * (0.25 : ℚ) +
    authorRep.score * (0.20 : ℚ) +
    licenseComp.score * (0.10 : ℚ)
  (⟨total, workingEvidence.score, transpDocs.score, commSignals.score, authorRep.score, licenseComp.score⟩,
   workingEvidence.risks ++ transpDocs.risks ++ commSignals.risks ++ authorRep.risks ++ licenseComp.risks,
   workingEvidence.positives ++ transpDocs.positives ++ commSignals.positives ++ authorRep.positives ++ licenseComp.positives)

def calculateConfidence (data : RepoData) : ℚ :=
  let c1 : ℚ := if data.commits.length ≥ 20 then 70 + 10 else 70
  let c2 := if data.repo.stargazers_count > 50 then c1 + 10 else c1
  let c3 := if data.contributors.length > 3 then c2 + 5 else c2
  clamp c3 0 100

/-- The handler's inline assembly of `scoringResult` (after `scanBasicSecurity`
and `analyzeCodeQuality` have produced `vulnerabilities` and
`codeQualityMetrics`). -/
def scoringResult (data : RepoData) (vulnerabilities : List Vulnerability)
    (codeQualityMetrics : CodeQualityMetrics) (now : ℚ) : ScoringResult :=
  let safety := calculateSafety data now
  let legitimacy := calculateLegitimacy data now
  let safety_score := jsRound safety.1.total
  let legitimacy_score := jsRound legitimacy.1.total
  let overall_score := jsRound ((0.45 : ℚ) * safety_score + (0.55 : ℚ) * legitimacy_score)
  let confidence := calculateConfidence data
  { safety_score := safety_score,
    legitimacy_score := legitimacy_score,
    overall_score := overall_score,
    confidence := confidence,
    breakdown := ⟨safety.1, legitimacy.1⟩,
    notes := [],
    risk_factors := safety.2.1 ++ legitimacy.2.1,
    positive_indicators := safety.2.2 ++ legitimacy.2.2,
    vulnerabilities := vulnerabilities,
    vulnerability_summary := vulnerabilitySummary vulnerabilities,
    code_quality_metrics := codeQualityMetrics }

end RepoScan.ScanRepoBundled
namespace RepoScan.SupplyChain

lemma matrixVal_zero (a b : List Char) (j : ℕ) : matrixVal a b 0 j = j := by
  simp [matrixVal]

lemma matrixVal_succ_zero (a b : List Char) (i : ℕ) : matrixVal a b (i+1) 0 = i+1 := by
  simp [matrixVal]

lemma matrixVal_succ_succ (a b : List Char) (i j : ℕ) :
    matrixVal a b (i+1) (j+1) =
      if b.getD i ' ' = a.getD j ' ' then matrixVal a b i j
      else min3 (matrixVal a b i j + 1) (matrixVal a b (i+1) j + 1)
                (matrixVal a b i (j+1) + 1) := by
  rw [matrixVal]

lemma levFill_spec (a b : List Char) (i : ℕ) :
    ∀ (n j : ℕ), n = a.length - j → j ≤ a.length →
    levFill (b.getD i ' ')
        ((List.range' j (a.length + 1 - j)).map (matrixVal a b i))
        (matrixVal a b (i+1) j) (a.drop j)
      = (List.range' (j+1) (a.length - j)).map (matrixVal a b (i+1)) := by
  intro n
  induction n with
  | zero =>
    intro j hn hj
    have hja : a.length = j := by omega
    have hdrop : a.drop j = [] := List.drop_eq_nil_of_le (by omega)
    rw [hdrop]
    simp [levFill, ← hja, hn.symm]
  | succ m ih =>
    intro j hn hj
    have hj' : j < a.length := by omega
    have hdrop : a.drop j = a[j] :: a.drop (j+1) := List.drop_eq_getElem_cons hj'
    have hlen1 : a.length + 1 - j = (a.length - j) + 1 := by omega
    have hlen2 : a.length - j = m + 1 := by omega
    rw [hdrop, hlen1, List.range'_succ, List.map_cons, levFill]
    have hup : ((List.range' (j+1) (a.length - j)).map (matrixVal a b i)).headD 0
        = matrixVal a b i (j+1) := by
      rw [hlen2, List.range'_succ, List.map_cons]
      rfl
    have hcur :
        (if b.getD i ' ' = a[j] then matrixVal a b i j
         else min3 (matrixVal a b i j + 1) (matrixVal a b (i+1) j + 1)
              (((List.range' (j+1) (a.length - j)).map (matrixVal a b i)).headD 0 + 1))
          = matrixVal a b (i+1) (j+1) := by
      rw [hup, matrixVal_succ_succ]
      have : a.getD j ' ' = a[j] := List.getD_eq_getElem a ' ' hj'
      rw [this]
    rw [hcur]
    have hrec := ih (j+1) (by omega) (by omega)
    have hlen3 : a.length + 1 - (j+1) = a.length - j := by omega
    rw [hlen3] at hrec
    rw [hrec]
    have hlen4 : a.length - j = (a.length - (j+1)) + 1 := by omega
    rw [hlen4, List.range'_succ, List.map_cons]

end RepoScan.SupplyChain
namespace RepoScan.SupplyChain

lemma levLoop_spec (a b : List Char) :
    ∀ (bs' : List Char) (i : ℕ), bs' = b.drop i → i ≤ b.length →
    levLoop a ((List.range' 0 (a.length + 1)).map (matrixVal a b i)) i bs'
      = (List.range' 0 (a.length + 1)).map (matrixVal a b b.length) := by
  intro bs'
  induction bs' with
  | nil =>
    intro i hdrop hi
    have : b.length ≤ i := by
      by_contra h
      have := List.drop_eq_getElem_cons (l := b) (by omega : i < b.length)
      rw [this] at hdrop
      exact List.cons_ne_nil _ _ hdrop.symm
    have hib : i = b.length := by omega
    rw [levLoop, hib]
  | cons bc rest ih =>
    intro i hdrop hi
    have hi' : i < b.length := by
      by_contra h
      rw [List.drop_eq_nil_of_le (by omega)] at hdrop
      exact List.cons_ne_nil _ _ hdrop
    have hbc : bc = b[i] := by
      have := List.drop_eq_getElem_cons (l := b) hi'
      rw [this] at hdrop
      exact (List.cons.injEq _ _ _ _ ▸ hdrop).1
    have hrest : rest = b.drop (i+1) := by
      have := List.drop_eq_getElem_cons (l := b) hi'
      rw [this] at hdrop
      exact (List.cons.injEq _ _ _ _ ▸ hdrop).2
    rw [levLoop]
    have hrow :
        (i+1) :: levFill bc ((List.range' 0 (a.length + 1)).map (matrixVal a b i)) (i+1) a
          = (List.range' 0 (a.length + 1)).map (matrixVal a b (i+1)) := by
      have hfill := levFill_spec a b i (a.length) 0 (by omega) (by omega)
      simp only [List.drop_zero, Nat.sub_zero] at hfill
      have hbcg : bc = b.getD i ' ' := by
        rw [hbc, List.getD_eq_getElem b ' ' hi']
      have hleft : matrixVal a b (i+1) 0 = i + 1 := matrixVal_succ_zero a b i
      rw [hleft] at hfill
      rw [hbcg, hfill, List.range'_succ, List.map_cons, hleft]
    rw [hrow]
    exact ih (i+1) hrest (by omega)

/-- The dynamic-programming `levenshteinDistance` computes
`matrix[b.length][a.length]` of the recurrence. -/
lemma levenshteinDistance_eq_matrixVal (a b : String) :
    levenshteinDistance a b = matrixVal a.data b.data b.data.length a.data.length := by
  unfold levenshteinDistance
  have hinit : List.range (a.data.length + 1)
      = (List.range' 0 (a.data.length + 1)).map (matrixVal a.data b.data 0) := by
    rw [List.range_eq_range']
    apply List.ext_getElem
    · simp
    · intro n h1 h2
      simp [matrixVal_zero]
  rw [hinit, levLoop_spec a.data b.data b.data 0 (by simp) (by omega)]
  rw [List.getD_eq_getElem _ _ (by simp)]
  simp

end RepoScan.SupplyChain
namespace RepoScan.SupplyChain

lemma matrixVal_symm (a b : List Char) :
    ∀ (n i j : ℕ), i + j ≤ n → matrixVal a b i j = matrixVal b a j i := by
  intro n
  induction n with
  | zero =>
    intro i j h
    have hi : i = 0 := by omega
    have hj : j = 0 := by omega
    subst hi; subst hj
    simp [matrixVal_zero]
  | succ m ih =>
    intro i j h
    match i, j with
    | 0, 0 => simp [matrixVal_zero]
    | 0, j+1 => simp [matrixVal_zero, matrixVal_succ_zero]
    | i+1, 0 => simp [matrixVal_zero, matrixVal_succ_zero]
    | i+1, j+1 =>
      rw [matrixVal_succ_succ, matrixVal_succ_succ]
      have e1 : matrixVal a b i j = matrixVal b a j i := ih i j (by omega)
      have e2 : matrixVal a b (i+1) j = matrixVal b a j (i+1) := ih (i+1) j (by omega)
      have e3 : matrixVal a b i (j+1) = matrixVal b a (j+1) i := ih i (j+1) (by omega)
      by_cases hc : b.getD i ' ' = a.getD j ' '
      · rw [if_pos hc, if_pos hc.symm, e1]
      · rw [if_neg hc, if_neg (fun hx => hc hx.symm), e1, e2, e3]
        simp only [min3]
        omega

lemma matrixVal_eq_zero_iff (a b : List Char) :
    ∀ (n i j : ℕ), i + j ≤ n → i ≤ b.length → j ≤ a.length →
    (matrixVal a b i j = 0 ↔ (i = j ∧ b.take i = a.take j)) := by
  intro n
  induction n with
  | zero =>
    intro i j h _ _
    have hi : i = 0 := by omega
    have hj : j = 0 := by omega
    subst hi; subst hj
    simp [matrixVal_zero]
  | succ m ih =>
    intro i j h hi hj
    match i, j with
    | 0, 0 => simp [matrixVal_zero]
    | 0, j+1 => simp [matrixVal_zero]
    | i+1, 0 => simp [matrixVal_succ_zero]
    | i+1, j+1 =>
      have hib : i < b.length := by omega
      have hja : j < a.length := by omega
      have hbt : b.take (i+1) = b.take i ++ [b[i]] := by
        rw [List.take_succ, List.getElem?_eq_getElem hib]
        rfl
      have hat : a.take (j+1) = a.take j ++ [a[j]] := by
        rw [List.take_succ, List.getElem?_eq_getElem hja]
        rfl
      have hlb : (b.take i).length = i := by
        simp [List.length_take]
        omega
      have hla : (a.take j).length = j := by
        simp [List.length_take]
        omega
      rw [matrixVal_succ_succ]
      by_cases hc : b.getD i ' ' = a.getD j ' '
      · rw [if_pos hc]
        rw [ih i j (by omega) (by omega) (by omega)]
        constructor
        · rintro ⟨hij, htake⟩
          subst hij
          refine ⟨rfl, ?_⟩
          rw [hbt, hat, htake]
          have hba : b[i] = a[i] := by
            rw [← List.getD_eq_getElem b ' ' hib, ← List.getD_eq_getElem a ' ' hja, hc]
          rw [hba]
        · rintro ⟨hij, htake⟩
          have hij' : i = j := by omega
          subst hij'
          refine ⟨rfl, ?_⟩
          rw [hbt, hat] at htake
          exact (List.append_inj htake (by omega)).1
      · rw [if_neg hc]
        constructor
        · intro hmin
          exfalso
          simp only [min3] at hmin
          omega
        · rintro ⟨hij, htake⟩
          exfalso
          have hij' : i = j := by omega
          subst hij'
          rw [hbt, hat] at htake
          have := (List.append_inj htake (by omega)).2
          have hbi : b[i] = a[i] := by
            simpa using this
          apply hc
          rw [List.getD_eq_getElem b ' ' hib, List.getD_eq_getElem a ' ' hja, hbi]

lemma levenshteinDistance_eq_zero_iff (a b : String) :
    levenshteinDistance a b = 0 ↔ a = b := by
  rw [levenshteinDistance_eq_matrixVal]
  rw [matrixVal_eq_zero_iff a.data b.data (b.data.length + a.data.length)
      b.data.length a.data.length (by omega) (by omega) (by omega)]
  simp only [List.take_length]
  constructor
  · rintro ⟨hlen, hdata⟩
    exact congrArg String.mk hdata.symm
  · rintro rfl
    exact ⟨rfl, rfl⟩

lemma levenshteinDistance_symm (a b : String) :
    levenshteinDistance a b = levenshteinDistance b a := by
  rw [levenshteinDistance_eq_matrixVal, levenshteinDistance_eq_matrixVal]
  exact matrixVal_symm a.data b.data (b.data.length + a.data.length)
    b.data.length a.data.length (by omega)

end RepoScan.SupplyChain
namespace RepoScan

lemma length_splitOnP {α : Type} (p : α → Bool) (l : List α) :
    (l.splitOnP p).length = l.countP p + 1 := by
  induction l with
  | nil => simp [List.splitOnP_nil]
  | cons x xs ih =>
    rw [List.splitOnP_cons]
    by_cases h : p x
    · simp [h, ih, List.countP_cons]
    · simp [h, ih, List.countP_cons]

lemma length_splitOn_eq_count (c : Char) (l : List Char) :
    (l.splitOn c).length = l.count c + 1 := by
  rw [List.splitOn, length_splitOnP, List.count]

lemma jsRound_nonneg {x : ℚ} (h : 0 ≤ x) : 0 ≤ jsRound x := by
  rw [jsRound, Int.le_floor]
  push_cast
  linarith

lemma jsRound_le_100 {x : ℚ} (h : x ≤ 100) : jsRound x ≤ 100 := by
  rw [jsRound]
  have h1 : x + 1/2 ≤ (100 : ℚ) + 1/2 := by linarith
  calc ⌊x + 1/2⌋ ≤ ⌊(100 : ℚ) + 1/2⌋ := Int.floor_le_floor h1
    _ = 100 := by
        rw [Int.floor_eq_iff]
        norm_num

end RepoScan

namespace RepoScan.ScanRepo

lemma clamp_nonneg (v : ℚ) : 0 ≤ clamp v 0 100 := le_max_left 0 _

lemma clamp_le_100 (v : ℚ) : clamp v 0 100 ≤ 100 :=
  max_le (by norm_num) (min_le_left _ _)

lemma scoreDependencyRisks_bounds (c : List FileEntry) :
    0 ≤ (scoreDependencyRisks c).score ∧ (scoreDependencyRisks c).score ≤ 100 :=
  ⟨clamp_nonneg _, clamp_le_100 _⟩

lemma scoreCodeSecurity_bounds (c : List FileEntry) (r : Repo) :
    0 ≤ (scoreCodeSecurity c r).score ∧ (scoreCodeSecurity c r).score ≤ 100 :=
  ⟨clamp_nonneg _, clamp_le_100 _⟩

lemma scoreConfigHygiene_bounds (c : List FileEntry) :
    0 ≤ (scoreConfigHygiene c).score ∧ (scoreConfigHygiene c).score ≤ 100 :=
  ⟨clamp_nonneg _, clamp_le_100 _⟩

lemma scoreCodeQuality_bounds (c : List FileEntry) (r : Repo) :
    0 ≤ (scoreCodeQuality c r).score ∧ (scoreCodeQuality c r).score ≤ 100 :=
  ⟨clamp_nonneg _, clamp_le_100 _⟩

lemma scoreMaintenancePosture_bounds (cs : List Commit) (r : Repo) (now : ℚ) :
    0 ≤ (scoreMaintenancePosture cs r now).score ∧
      (scoreMaintenancePosture cs r now).score ≤ 100 := by
  unfold scoreMaintenancePosture
  by_cases h : r.archived
  · simp only [h, if_true]
    norm_num
  · simp only [h, if_false]
    cases cs with
    | nil => exact ⟨clamp_nonneg _, clamp_le_100 _⟩
    | cons c0 rest => exact ⟨clamp_nonneg _, clamp_le_100 _⟩

lemma scoreWorkingEvidence_bounds (c : List FileEntry) (r : Repo) (cs : List Commit) :
    0 ≤ (scoreWorkingEvidence c r cs).score ∧ (scoreWorkingEvidence c r cs).score ≤ 100 :=
  ⟨clamp_nonneg _, clamp_le_100 _⟩

lemma scoreTransparency_bounds (c : List FileEntry) (r : Repo) :
    0 ≤ (scoreTransparency c r).score ∧ (scoreTransparency c r).score ≤ 100 :=
  ⟨clamp_nonneg _, clamp_le_100 _⟩

lemma scoreCommunity_bounds (r : Repo) (cons : List Unit) (lg : ℚ → ℚ) :
    0 ≤ (scoreCommunity r cons lg).score ∧ (scoreCommunity r cons lg).score ≤ 100 :=
  ⟨clamp_nonneg _, clamp_le_100 _⟩

lemma scoreAuthorReputation_bounds (o : Option Owner) (r : Repo) (now : ℚ) :
    0 ≤ (scoreAuthorReputation o r now).score ∧
      (scoreAuthorReputation o r now).score ≤ 100 := by
  unfold scoreAuthorReputation
  cases o with
  | none => norm_num
  | some o => exact ⟨clamp_nonneg _, clamp_le_100 _⟩

lemma scoreLicenseCompliance_bounds (r : Repo) :
    0 ≤ (scoreLicenseCompliance r).score ∧ (scoreLicenseCompliance r).score ≤ 100 := by
  unfold scoreLicenseCompliance
  cases r.license with
  | none => norm_num
  | some l => exact ⟨clamp_nonneg _, clamp_le_100 _⟩

lemma calculateSafety_total_bounds (data : RepoData) (now : ℚ) :
    0 ≤ (calculateSafety data now).1.total ∧ (calculateSafety data now).1.total ≤ 100 := by
  obtain ⟨h1a, h1b⟩ := scoreDependencyRisks_bounds data.contents
  obtain ⟨h2a, h2b⟩ := scoreCodeSecurity_bounds data.contents data.repo
  obtain ⟨h3a, h3b⟩ := scoreConfigHygiene_bounds data.contents
  obtain ⟨h4a, h4b⟩ := scoreCodeQuality_bounds data.contents data.repo
  obtain ⟨h5a, h5b⟩ := scoreMaintenancePosture_bounds data.commits data.repo now
  constructor
  · show (0 : ℚ) ≤
      (scoreDependencyRisks data.contents).score * (0.30 : ℚ) +
      (scoreCodeSecurity data.contents data.repo).score * (0.30 : ℚ) +
      (scoreConfigHygiene data.contents).score * (0.15 : ℚ) +
      (scoreCodeQuality data.contents data.repo).score * (0.15 : ℚ) +
      (scoreMaintenancePosture data.commits data.repo now).score * (0.10 : ℚ)
    nlinarith
  · show
      (scoreDependencyRisks data.contents).score * (0.30 : ℚ) +
      (scoreCodeSecurity data.contents data.repo).score * (0.30 : ℚ) +
      (scoreConfigHygiene data.contents).score * (0.15 : ℚ) +
      (scoreCodeQuality data.contents data.repo).score * (0.15 : ℚ) +
      (scoreMaintenancePosture data.commits data.repo now).score * (0.10 : ℚ) ≤ 100
    nlinarith

lemma calculateLegitimacy_total_bounds (data : RepoData) (now : ℚ) (lg : ℚ → ℚ) :
    0 ≤ (calculateLegitimacy data now lg).1.total ∧
      (calculateLegitimacy data now lg).1.total ≤ 100 := by
  obtain ⟨h1a, h1b⟩ := scoreWorkingEvidence_bounds data.contents data.repo data.commits
  obtain ⟨h2a, h2b⟩ := scoreTransparency_bounds data.contents data.repo
  obtain ⟨h3a, h3b⟩ := scoreCommunity_bounds data.repo data.contributors lg
  obtain ⟨h4a, h4b⟩ := scoreAuthorReputation_bounds data.owner data.repo now
  obtain ⟨h5a, h5b⟩ := scoreLicenseCompliance_bounds data.repo
  constructor
  · show (0 : ℚ) ≤
      (scoreWorkingEvidence data.contents data.repo data.commits).score * (0.40 : ℚ) +
      (scoreTransparency data.contents data.repo).score * (0.20 : ℚ) +
      (scoreCommunity data.repo data.contributors lg).score * (0.15 : ℚ) +
      (scoreAuthorReputation data.owner data.repo now).score * (0.15 : ℚ) +
      (scoreLicenseCompliance data.repo).score * (0.10 : ℚ)
    nlinarith
  · show
      (scoreWorkingEvidence data.contents data.repo data.commits).score * (0.40 : ℚ) +
      (scoreTransparency data.contents data.repo).score * (0.20 : ℚ) +
      (scoreCommunity data.repo data.contributors lg).score * (0.15 : ℚ) +
      (scoreAuthorReputation data.owner data.repo now).score * (0.15 : ℚ) +
      (scoreLicenseCompliance data.repo).score * (0.10 : ℚ) ≤ 100
    nlinarith

end RepoScan.ScanRepo
namespace RepoScan

/-- C2: in every scoring-engine variant (scan-repo, the part_009 variant with
code-quality metrics, and scan-repo-bundled), the final
`overall_score = round(0.45 × safety_score + 0.55 × legitimacy_score)`, where
`safety_score`/`legitimacy_score` are the rounded breakdown totals. -/
theorem overall_score_weighted_round_all_variants :
    (∀ (data : RepoData) (vulns : List Vulnerability) (summary : VulnSummary)
        (now : ℚ) (lg : ℚ → ℚ),
      (ScanRepo.scoreRepository data vulns summary now lg).overall_score =
        jsRound ((0.45 : ℚ) * ((ScanRepo.scoreRepository data vulns summary now lg).safety_score : ℚ) +
                 (0.55 : ℚ) * ((ScanRepo.scoreRepository data vulns summary now lg).legitimacy_score : ℚ)) ∧
      (ScanRepo.scoreRepository data vulns summary now lg).safety_score =
        jsRound (ScanRepo.scoreRepository data vulns summary now lg).breakdown.safety.total ∧
      (ScanRepo.scoreRepository data vulns summary now lg).legitimacy_score =
        jsRound (ScanRepo.scoreRepository data vulns summary now lg).breakdown.legitimacy.total) ∧
    (∀ (data : RepoData) (vulns : List Vulnerability) (summary : VulnSummary)
        (cqm : CodeQualityMetrics) (now : ℚ),
      (ScanRepoQuality.scoreRepository data vulns summary cqm now).overall_score =
        jsRound ((0.45 : ℚ) * ((ScanRepoQuality.scoreRepository data vulns summary cqm now).safety_score : ℚ) +
                 (0.55 : ℚ) * ((ScanRepoQuality.scoreRepository data vulns summary cqm now).legitimacy_score : ℚ)) ∧
      (ScanRepoQuality.scoreRepository data vulns summary cqm now).safety_score =
        jsRound (ScanRepoQuality.scoreRepository data vulns summary cqm now).breakdown.safety.total ∧
      (ScanRepoQuality.scoreRepository data vulns summary cqm now).legitimacy_score =
        jsRound (ScanRepoQuality.scoreRepository data vulns summary cqm now).breakdown.legitimacy.total) ∧
    (∀ (data : RepoData) (vulns : List Vulnerability)
        (cqm : CodeQualityMetrics) (now : ℚ),
      (ScanRepoBundled.scoringResult data vulns cqm now).overall_score =
        jsRound ((0.45 : ℚ) * ((ScanRepoBundled.scoringResult data vulns cqm now).safety_score : ℚ) +
                 (0.55 : ℚ) * ((ScanRepoBundled.scoringResult data vulns cqm now).legitimacy_score : ℚ)) ∧
      (ScanRepoBundled.scoringResult data vulns cqm now).safety_score =
        jsRound (ScanRepoBundled.scoringResult data vulns cqm now).breakdown.safety.total ∧
      (ScanRepoBundled.scoringResult data vulns cqm now).legitimacy_score =
        jsRound (ScanRepoBundled.scoringResult data vulns cqm now).breakdown.legitimacy.total) :=
  ⟨fun _ _ _ _ _ => ⟨rfl, rfl, rfl⟩,
   fun _ _ _ _ _ => ⟨rfl, rfl, rfl⟩,
   fun _ _ _ _ => ⟨rfl, rfl, rfl⟩⟩

/-- C3: in the scan-repo scoring engine, for every input, all five safety
sub-scores, all five legitimacy sub-scores, both breakdown totals and the
overall score lie in [0, 100]. -/
theorem scanRepo_scores_in_range (data : RepoData) (vulns : List Vulnerability)
    (summary : VulnSummary) (now : ℚ) (lg : ℚ → ℚ) :
    (0 ≤ (ScanRepo.scoreRepository data vulns summary now lg).breakdown.safety.dependency_risks ∧
      (ScanRepo.scoreRepository data vulns summary now lg).breakdown.safety.dependency_risks ≤ 100) ∧
    (0 ≤ (ScanRepo.scoreRepository data vulns summary now lg).breakdown.safety.code_security ∧
      (ScanRepo.scoreRepository data vulns summary now lg).breakdown.safety.code_security ≤ 100) ∧
    (0 ≤ (ScanRepo.scoreRepository data vulns summary now lg).breakdown.safety.config_hygiene ∧
      (ScanRepo.scoreRepository data vulns summary now lg).breakdown.safety.config_hygiene ≤ 100) ∧
    (0 ≤ (ScanRepo.scoreRepository data vulns summary now lg).breakdown.safety.code_quality ∧
      (ScanRepo.scoreRepository data vulns summary now lg).breakdown.safety.code_quality ≤ 100) ∧
    (0 ≤ (ScanRepo.scoreRepository data vulns summary now lg).breakdown.safety.maintenance_posture ∧
      (ScanRepo.scoreRepository data vulns summary now lg).breakdown.safety.maintenance_posture ≤ 100) ∧
    (0 ≤ (ScanRepo.scoreRepository data vulns summary now lg).breakdown.legitimacy.working_evidence ∧
      (ScanRepo.scoreRepository data vulns summary now lg).breakdown.legitimacy.working_evidence ≤ 100) ∧
    (0 ≤ (ScanRepo.scoreRepository data vulns summary now lg).breakdown.legitimacy.transparency_docs ∧
      (ScanRepo.scoreRepository data vulns summary now lg).breakdown.legitimacy.transparency_docs ≤ 100) ∧
    (0 ≤ (ScanRepo.scoreRepository data vulns summary now lg).breakdown.legitimacy.community_signals ∧
      (ScanRepo.scoreRepository data vulns summary now lg).breakdown.legitimacy.community_signals ≤ 100) ∧
    (0 ≤ (ScanRepo.scoreRepository data vulns summary now lg).breakdown.legitimacy.author_reputation ∧
      (ScanRepo.scoreRepository data vulns summary now lg).breakdown.legitimacy.author_reputation ≤ 100) ∧
    (0 ≤ (ScanRepo.scoreRepository data vulns summary now lg).breakdown.legitimacy.license_compliance ∧
      (ScanRepo.scoreRepository data vulns summary now lg).breakdown.legitimacy.license_compliance ≤ 100) ∧
    (0 ≤ (ScanRepo.scoreRepository data vulns summary now lg).breakdown.safety.total ∧
      (ScanRepo.scoreRepository data vulns summary now lg).breakdown.safety.total ≤ 100) ∧
    (0 ≤ (ScanRepo.scoreRepository data vulns summary now lg).breakdown.legitimacy.total ∧
      (ScanRepo.scoreRepository data vulns summary now lg).breakdown.legitimacy.total ≤ 100) ∧
    (0 ≤ (ScanRepo.scoreRepository data vulns summary now lg).overall_score ∧
      (ScanRepo.scoreRepository data vulns summary now lg).overall_score ≤ 100) := by
  have hst := ScanRepo.calculateSafety_total_bounds data now
  have hlt := ScanRepo.calculateLegitimacy_total_bounds data now lg
  have hss0 : 0 ≤ jsRound (ScanRepo.calculateSafety data now).1.total :=
    jsRound_nonneg hst.1
  have hss1 : jsRound (ScanRepo.calculateSafety data now).1.total ≤ 100 :=
    jsRound_le_100 hst.2
  have hls0 : 0 ≤ jsRound (ScanRepo.calculateLegitimacy data now lg).1.total :=
    jsRound_nonneg hlt.1
  have hls1 : jsRound (ScanRepo.calculateLegitimacy data now lg).1.total ≤ 100 :=
    jsRound_le_100 hlt.2
  have hssq0 : (0 : ℚ) ≤ (jsRound (ScanRepo.calculateSafety data now).1.total : ℚ) := by
    exact_mod_cast hss0
  have hssq1 : (jsRound (ScanRepo.calculateSafety data now).1.total : ℚ) ≤ 100 := by
    exact_mod_cast hss1
  have hlsq0 : (0 : ℚ) ≤ (jsRound (ScanRepo.calculateLegitimacy data now lg).1.total : ℚ) := by
    exact_mod_cast hls0
  have hlsq1 : (jsRound (ScanRepo.calculateLegitimacy data now lg).1.total : ℚ) ≤ 100 := by
    exact_mod_cast hls1
  have hov0 : 0 ≤ jsRound ((0.45 : ℚ) * (jsRound (ScanRepo.calculateSafety data now).1.total : ℚ) +
      (0.55 : ℚ) * (jsRound (ScanRepo.calculateLegitimacy data now lg).1.total : ℚ)) :=
    jsRound_nonneg (by nlinarith)
  have hov1 : jsRound ((0.45 : ℚ) * (jsRound (ScanRepo.calculateSafety data now).1.total : ℚ) +
      (0.55 : ℚ) * (jsRound (ScanRepo.calculateLegitimacy data now lg).1.total : ℚ)) ≤ 100 :=
    jsRound_le_100 (by nlinarith)
  exact ⟨ScanRepo.scoreDependencyRisks_bounds data.contents,
    ScanRepo.scoreCodeSecurity_bounds data.contents data.repo,
    ScanRepo.scoreConfigHygiene_bounds data.contents,
    ScanRepo.scoreCodeQuality_bounds data.contents data.repo,
    ScanRepo.scoreMaintenancePosture_bounds data.commits data.repo now,
    ScanRepo.scoreWorkingEvidence_bounds data.contents data.repo data.commits,
    ScanRepo.scoreTransparency_bounds data.contents data.repo,
    ScanRepo.scoreCommunity_bounds data.repo data.contributors lg,
    ScanRepo.scoreAuthorReputation_bounds data.owner data.repo now,
    ScanRepo.scoreLicenseCompliance_bounds data.repo,
    hst, hlt, hov0, hov1⟩

/-- C7: `repo.archived == true` forces the maintenance-posture sub-score to 0
and records the archived risk factor, in both the scan-repo and the part_009
scoring variants (also visible in the assembled breakdowns). -/
theorem archived_forces_maintenance_zero :
    (∀ (commits : List Commit) (repo : Repo) (now : ℚ), repo.archived = true →
      (ScanRepo.scoreMaintenancePosture commits repo now).score = 0 ∧
      "Repository is archived (no longer maintained)" ∈
        (ScanRepo.scoreMaintenancePosture commits repo now).risks ∧
      (ScanRepoQuality.scoreMaintenancePosture commits repo now).score = 0 ∧
      "Repository is archived (no longer maintained)" ∈
        (ScanRepoQuality.scoreMaintenancePosture commits repo now).risks) ∧
    (∀ (data : RepoData) (vulns : List Vulnerability) (summary : VulnSummary)
        (now : ℚ) (lg : ℚ → ℚ), data.repo.archived = true →
      (ScanRepo.scoreRepository data vulns summary now lg).breakdown.safety.maintenance_posture = 0) ∧
    (∀ (data : RepoData) (vulns : List Vulnerability) (summary : VulnSummary)
        (cqm : CodeQualityMetrics) (now : ℚ), data.repo.archived = true →
      (ScanRepoQuality.scoreRepository data vulns summary cqm now).breakdown.safety.maintenance_posture = 0) := by
  refine ⟨fun commits repo now h => ?_, fun data vulns summary now lg h => ?_,
    fun data vulns summary cqm now h => ?_⟩
  · refine ⟨?_, ?_, ?_, ?_⟩ <;>
      simp [ScanRepo.scoreMaintenancePosture, ScanRepoQuality.scoreMaintenancePosture, h]
  · show (ScanRepo.scoreMaintenancePosture data.commits data.repo now).score = 0
    simp [ScanRepo.scoreMaintenancePosture, h]
  · show (ScanRepoQuality.scoreMaintenancePosture data.commits data.repo now).score = 0
    simp [ScanRepoQuality.scoreMaintenancePosture, h]

/-- C7 witness: a concrete archived repository. -/
theorem archived_forces_maintenance_zero_witness :
    (ScanRepo.scoreMaintenancePosture []
      ⟨true, none, none, 0, 0, 0, 0, false, false, false⟩ 0).score = 0 ∧
    "Repository is archived (no longer maintained)" ∈
      (ScanRepo.scoreMaintenancePosture []
        ⟨true, none, none, 0, 0, 0, 0, false, false, false⟩ 0).risks ∧
    (ScanRepoQuality.scoreMaintenancePosture []
      ⟨true, none, none, 0, 0, 0, 0, false, false, false⟩ 0).score = 0 ∧
    "Repository is archived (no longer maintained)" ∈
      (ScanRepoQuality.scoreMaintenancePosture []
        ⟨true, none, none, 0, 0, 0, 0, false, false, false⟩ 0).risks :=
  archived_forces_maintenance_zero.1 [] ⟨true, none, none, 0, 0, 0, 0, false, false, false⟩ 0 rfl

/-- C10: the `levenshteinDistance` helper is a metric on strings in the two
senses the typosquatting check relies on: it vanishes exactly on equal
strings and it is symmetric. -/
theorem levenshteinDistance_metric (a b : String) :
    (SupplyChain.levenshteinDistance a b = 0 ↔ a = b) ∧
    SupplyChain.levenshteinDistance a b = SupplyChain.levenshteinDistance b a :=
  ⟨SupplyChain.levenshteinDistance_eq_zero_iff a b,
   SupplyChain.levenshteinDistance_symm a b⟩

/-- C10 witness: the metric properties evaluated at concrete strings. -/
theorem levenshteinDistance_metric_witness :
    SupplyChain.levenshteinDistance "lodash" "lodash" = 0 ∧
    SupplyChain.levenshteinDistance "lodash" "loadash" =
      SupplyChain.levenshteinDistance "loadash" "lodash" :=
  ⟨(levenshteinDistance_metric "lodash" "lodash").1.mpr rfl,
   (levenshteinDistance_metric "lodash" "loadash").2⟩

end RepoScan
namespace RepoScan

lemma severity_partition (l : List Vulnerability) :
    l.length =
      (l.filter (fun v => v.severity = .critical)).length +
      (l.filter (fun v => v.severity = .high)).length +
      (l.filter (fun v => v.severity = .medium)).length +
      (l.filter (fun v => v.severity = .low)).length := by
  induction l with
  | nil => simp
  | cons v rest ih =>
    rcases hv : v.severity <;> simp [List.filter_cons, hv] <;> omega

lemma type_partition (l : List Vulnerability) :
    l.length =
      (l.filter (fun v => v.type = .dependency)).length +
      (l.filter (fun v => v.type = .code_pattern)).length +
      (l.filter (fun v => v.type = .configuration)).length := by
  induction l with
  | nil => simp
  | cons v rest ih =>
    rcases hv : v.type <;> simp [List.filter_cons, hv] <;> omega

/-- C8: the bundled `vulnerabilitySummary` is consistent — `total_count`
equals the sum of the per-type counts and the sum of the per-severity
counts, it is invariant under permutation of the finding list, and the empty
list yields all-zero counts. -/
theorem vulnerabilitySummary_consistency (vulns : List Vulnerability) :
    ((ScanRepoBundled.vulnerabilitySummary vulns).total_count =
      (ScanRepoBundled.vulnerabilitySummary vulns).by_type.dependency +
      (ScanRepoBundled.vulnerabilitySummary vulns).by_type.code_pattern +
      (ScanRepoBundled.vulnerabilitySummary vulns).by_type.configuration) ∧
    ((ScanRepoBundled.vulnerabilitySummary vulns).total_count =
      (ScanRepoBundled.vulnerabilitySummary vulns).critical_count +
      (ScanRepoBundled.vulnerabilitySummary vulns).high_count +
      (ScanRepoBundled.vulnerabilitySummary vulns).medium_count +
      (ScanRepoBundled.vulnerabilitySummary vulns).low_count) ∧
    (∀ vulns' : List Vulnerability, vulns.Perm vulns' →
      ScanRepoBundled.vulnerabilitySummary vulns = ScanRepoBundled.vulnerabilitySummary vulns') ∧
    ScanRepoBundled.vulnerabilitySummary [] = ⟨0, 0, 0, 0, 0, ⟨0, 0, 0⟩⟩ := by
  refine ⟨type_partition vulns, severity_partition vulns, fun vulns' h => ?_, rfl⟩
  simp only [ScanRepoBundled.vulnerabilitySummary, VulnSummary.mk.injEq, ByType.mk.injEq]
  exact ⟨h.length_eq, (h.filter _).length_eq, (h.filter _).length_eq,
    (h.filter _).length_eq, (h.filter _).length_eq,
    (h.filter _).length_eq, (h.filter _).length_eq, (h.filter _).length_eq⟩

/-- C8 witness: the consistency facts at a concrete two-element finding list
and a concrete permutation of it. -/
theorem vulnerabilitySummary_consistency_witness :
    (ScanRepoBundled.vulnerabilitySummary
        [⟨.critical, .dependency, "d1", "l1", none, none⟩,
         ⟨.low, .configuration, "d2", "l2", none, none⟩]).total_count = 2 ∧
    ScanRepoBundled.vulnerabilitySummary
        [⟨.critical, .dependency, "d1", "l1", none, none⟩,
         ⟨.low, .configuration, "d2", "l2", none, none⟩] =
      ScanRepoBundled.vulnerabilitySummary
        [⟨.low, .configuration, "d2", "l2", none, none⟩,
         ⟨.critical, .dependency, "d1", "l1", none, none⟩] :=
  ⟨rfl,
   (vulnerabilitySummary_consistency
      [⟨.critical, .dependency, "d1", "l1", none, none⟩,
       ⟨.low, .configuration, "d2", "l2", none, none⟩]).2.2.1
    [⟨.low, .configuration, "d2", "l2", none, none⟩,
     ⟨.critical, .dependency, "d1", "l1", none, none⟩]
    (List.Perm.swap _ _ _)⟩

/-- C6: whenever the contents listing has an entry named `.env`, the
configuration scanner emits a critical finding located at `.env`; it is the
first finding emitted and does not depend on any fetched file content. -/
theorem scanEnvFiles_env_listing_finding (contents : List FileEntry)
    (fetchFile : String → Option String)
    (h : ∃ f ∈ contents, f.name = ".env") :
    ∃ v ∈ ConfigScanner.scanEnvFiles contents fetchFile,
      v.severity = .critical ∧ v.location = ".env" ∧
      (ConfigScanner.scanEnvFiles contents fetchFile).head? = some v := by
  have hfind : (contents.find? (fun f => f.name = ".env")).isSome := by
    rw [List.find?_isSome]
    obtain ⟨f, hf, hname⟩ := h
    exact ⟨f, hf, by simp [hname]⟩
  unfold ConfigScanner.scanEnvFiles
  obtain ⟨f, hfeq⟩ := Option.isSome_iff_exists.mp hfind
  rw [hfeq]
  refine ⟨_, List.mem_append_left _ (List.mem_cons_self _ _), rfl, rfl, ?_⟩
  rw [List.cons_append]
  rfl

/-- C6 witness: a one-entry listing containing `.env`, with all fetches
failing. -/
theorem scanEnvFiles_env_listing_finding_witness :
    ∃ v ∈ ConfigScanner.scanEnvFiles [⟨".env", "file", 0⟩] (fun _ => none),
      v.severity = .critical ∧ v.location = ".env" ∧
      (ConfigScanner.scanEnvFiles [⟨".env", "file", 0⟩] (fun _ => none)).head? = some v :=
  scanEnvFiles_env_listing_finding [⟨".env", "file", 0⟩] (fun _ => none)
    ⟨⟨".env", "file", 0⟩, by simp, rfl⟩

end RepoScan
namespace RepoScan

/-- C5 amended: the scan-repo scoring engine is a pure function of the
snapshot, the findings and the clock reading: time enters only through the
maintenance-posture and author-reputation sub-scores, so whenever those two
agree between two clock readings (in particular for equal readings), the
whole `ScoringResult` is identical. -/
theorem scoreRepository_determined_by_snapshot_and_clock
    (data : RepoData) (vulns : List Vulnerability) (summary : VulnSummary)
    (lg : ℚ → ℚ) (t₁ t₂ : ℚ)
    (hm : ScanRepo.scoreMaintenancePosture data.commits data.repo t₁ =
          ScanRepo.scoreMaintenancePosture data.commits data.repo t₂)
    (ha : ScanRepo.scoreAuthorReputation data.owner data.repo t₁ =
          ScanRepo.scoreAuthorReputation data.owner data.repo t₂) :
    ScanRepo.scoreRepository data vulns summary t₁ lg =
      ScanRepo.scoreRepository data vulns summary t₂ lg := by
  simp only [ScanRepo.scoreRepository, ScanRepo.calculateSafety,
    ScanRepo.calculateLegitimacy, ScanRepo.calculateConfidence, hm, ha]

/-- C5 witness: the amended statement applied at a concrete snapshot with the
two clock readings equal. -/
theorem scoreRepository_determined_by_snapshot_and_clock_witness :
    ScanRepo.scoreRepository
        ⟨⟨false, none, none, 0, 0, 0, 0, false, false, false⟩, [], [⟨0, "a@b"⟩], [], none⟩
        [] ⟨0, 0, 0, 0, 0, ⟨0, 0, 0⟩⟩ 0 (fun _ => 0) =
      ScanRepo.scoreRepository
        ⟨⟨false, none, none, 0, 0, 0, 0, false, false, false⟩, [], [⟨0, "a@b"⟩], [], none⟩
        [] ⟨0, 0, 0, 0, 0, ⟨0, 0, 0⟩⟩ 0 (fun _ => 0) :=
  scoreRepository_determined_by_snapshot_and_clock
    ⟨⟨false, none, none, 0, 0, 0, 0, false, false, false⟩, [], [⟨0, "a@b"⟩], [], none⟩
    [] ⟨0, 0, 0, 0, 0, ⟨0, 0, 0⟩⟩ (fun _ => 0) 0 0 rfl rfl

/-- C5 counterexample: scoring the identical snapshot and findings at two
different `Date.now()` readings (the commit is fresh at time 0 and over a
year old 400 days later) yields different `ScoringResult`s, so scoring is not
a pure function of snapshot + findings alone. -/
theorem scoreRepository_clock_dependent :
    (ScanRepo.scoreRepository
        ⟨⟨false, none, none, 0, 0, 0, 0, false, false, false⟩, [], [⟨0, "a@b"⟩], [], none⟩
        [] ⟨0, 0, 0, 0, 0, ⟨0, 0, 0⟩⟩ 0 (fun _ => 0)).breakdown.safety.maintenance_posture = 70 ∧
    (ScanRepo.scoreRepository
        ⟨⟨false, none, none, 0, 0, 0, 0, false, false, false⟩, [], [⟨0, "a@b"⟩], [], none⟩
        [] ⟨0, 0, 0, 0, 0, ⟨0, 0, 0⟩⟩ 34560000000 (fun _ => 0)).breakdown.safety.maintenance_posture = 0 ∧
    ScanRepo.scoreRepository
        ⟨⟨false, none, none, 0, 0, 0, 0, false, false, false⟩, [], [⟨0, "a@b"⟩], [], none⟩
        [] ⟨0, 0, 0, 0, 0, ⟨0, 0, 0⟩⟩ 0 (fun _ => 0) ≠
      ScanRepo.scoreRepository
        ⟨⟨false, none, none, 0, 0, 0, 0, false, false, false⟩, [], [⟨0, "a@b"⟩], [], none⟩
        [] ⟨0, 0, 0, 0, 0, ⟨0, 0, 0⟩⟩ 34560000000 (fun _ => 0) := by
  have h1 : (ScanRepo.scoreRepository
      ⟨⟨false, none, none, 0, 0, 0, 0, false, false, false⟩, [], [⟨0, "a@b"⟩], [], none⟩
      [] ⟨0, 0, 0, 0, 0, ⟨0, 0, 0⟩⟩ 0 (fun _ => 0)).breakdown.safety.maintenance_posture = 70 := by
    show (ScanRepo.scoreMaintenancePosture [⟨0, "a@b"⟩]
      ⟨false, none, none, 0, 0, 0, 0, false, false, false⟩ 0).score = 70
    norm_num [ScanRepo.scoreMaintenancePosture, List.filter, ScanRepo.clamp]
  have h2 : (ScanRepo.scoreRepository
      ⟨⟨false, none, none, 0, 0, 0, 0, false, false, false⟩, [], [⟨0, "a@b"⟩], [], none⟩
      [] ⟨0, 0, 0, 0, 0, ⟨0, 0, 0⟩⟩ 34560000000 (fun _ => 0)).breakdown.safety.maintenance_posture = 0 := by
    show (ScanRepo.scoreMaintenancePosture [⟨0, "a@b"⟩]
      ⟨false, none, none, 0, 0, 0, 0, false, false, false⟩ 34560000000).score = 0
    norm_num [ScanRepo.scoreMaintenancePosture, List.filter, ScanRepo.clamp]
  refine ⟨h1, h2, fun h => ?_⟩
  have h3 := congrArg (fun r => r.breakdown.safety.maintenance_posture) h
  simp only at h3
  rw [h1, h2] at h3
  norm_num at h3

end RepoScan
namespace RepoScan

/-- C4 counterexample: when the metadata carries no `security_and_analysis`
object at all, the secret-scanning status is missing, yet `checkRepoSettings`
emits no finding — contradicting the claim that a missing status always
yields the finding. -/
theorem checkRepoSettings_missing_block_no_finding :
    GitHubSecurity.secretScanningStatus ⟨none⟩ = none ∧
    GitHubSecurity.checkRepoSettings ⟨none⟩ = [] :=
  ⟨rfl, rfl⟩

/-- C4 amended: when `security_and_analysis` is present, status `"enabled"`
suppresses the medium/configuration secret-scanning finding and any other
status (including a missing `secret_scanning` object or missing `status`
field) produces it; when `security_and_analysis` itself is absent, no
settings finding is emitted at all. -/
theorem checkRepoSettings_characterisation (repo : GitHubSecurity.RepoSettings) :
    (GitHubSecurity.secretScanningStatus repo = some "enabled" →
      GitHubSecurity.secretScanningFinding ∉ GitHubSecurity.checkRepoSettings repo) ∧
    (∀ saa, repo.security_and_analysis = some saa →
      saa.secret_scanning.bind GitHubSecurity.FeatureStatus.status ≠ some "enabled" →
      GitHubSecurity.secretScanningFinding ∈ GitHubSecurity.checkRepoSettings repo ∧
      GitHubSecurity.secretScanningFinding.severity = .medium ∧
      GitHubSecurity.secretScanningFinding.type = .configuration) ∧
    (repo.security_and_analysis = none →
      GitHubSecurity.checkRepoSettings repo = []) := by
  obtain ⟨saa?⟩ := repo
  cases saa? with
  | none =>
    refine ⟨?_, ?_, fun _ => rfl⟩
    · intro h
      simp [GitHubSecurity.secretScanningStatus] at h
    · intro saa h
      simp at h
  | some saa =>
    refine ⟨?_, ?_, ?_⟩
    · intro h
      have hss : saa.secret_scanning.bind GitHubSecurity.FeatureStatus.status = some "enabled" := by
        simpa [GitHubSecurity.secretScanningStatus] using h
      by_cases hd : saa.dependabot_security_updates.bind GitHubSecurity.FeatureStatus.status = some "enabled" <;>
        simp [GitHubSecurity.checkRepoSettings, hss, hd,
          GitHubSecurity.secretScanningFinding, GitHubSecurity.dependabotFinding]
    · rintro saa' ⟨rfl⟩ hne
      refine ⟨?_, rfl, rfl⟩
      simp only [GitHubSecurity.checkRepoSettings, if_pos hne]
      exact List.mem_append_left _ (List.mem_cons_self _ _)
    · intro h
      simp at h

/-- C4 witness: the amended statement at concrete metadata — enabled status
(no finding), and a present `security_and_analysis` with missing
`secret_scanning` status (finding emitted). -/
theorem checkRepoSettings_characterisation_witness :
    (GitHubSecurity.secretScanningFinding ∉
      GitHubSecurity.checkRepoSettings ⟨some ⟨some ⟨some "enabled"⟩, some ⟨some "enabled"⟩⟩⟩) ∧
    GitHubSecurity.secretScanningFinding ∈
      GitHubSecurity.checkRepoSettings ⟨some ⟨none, some ⟨some "enabled"⟩⟩⟩ ∧
    GitHubSecurity.checkRepoSettings ⟨none⟩ = [] :=
  ⟨(checkRepoSettings_characterisation ⟨some ⟨some ⟨some "enabled"⟩, some ⟨some "enabled"⟩⟩⟩).1 rfl,
   ((checkRepoSettings_characterisation ⟨some ⟨none, some ⟨some "enabled"⟩⟩⟩).2.1
      ⟨none, some ⟨some "enabled"⟩⟩ rfl (by simp)).1,
   (checkRepoSettings_characterisation ⟨none⟩).2.2 rfl⟩

end RepoScan
namespace RepoScan

lemma getLineNumber_eq_count (content : String) (idx : ℕ) :
    AdvancedPatterns.getLineNumber content idx =
      (content.data.take idx).count '\n' + 1 := by
  rw [AdvancedPatterns.getLineNumber, length_splitOn_eq_count]

/-- C9 counterexample: `detectPathTraversal` turns a regex match into a
finding whose `location` is the bare filename — no `:L` line suffix — so not
every pattern match records a `file:line` location. -/
theorem detectPathTraversal_location_has_no_line :
    AdvancedPatterns.detectPathTraversal "fs.readFile(req.query.file)" "app.js" =
      [{ severity := .high, type := .code_pattern,
         description := "Potential path traversal vulnerability",
         location := "app.js",
         details := some "User input used in file paths without validation. Sanitize and validate paths" }] ∧
    "app.js".data.count ':' = 0 ∧
    ∀ L : ℕ, "app.js" ≠ "app.js" ++ ":" ++ toString L := by
  refine ⟨by decide, by decide, fun L h => ?_⟩
  have hlen := congrArg (fun s => s.data.length) h
  simp [String.data_append] at hlen

/-- C9 amended: detectors that iterate `matchAll` (modelled here by
`detectHardcodedSecrets`) locate every finding at
`filename:L` with `L = getLineNumber content idx`, i.e. one plus the number
of newline characters before the match offset; `detectPathTraversal`
findings instead carry the bare filename. -/
theorem pattern_locations_characterisation (content filename : String)
    (matchIdxs : List (List ℕ)) :
    (∀ v ∈ AdvancedPatterns.detectHardcodedSecrets content filename matchIdxs,
      ∃ idx,
        v.location = filename ++ ":" ++ toString (AdvancedPatterns.getLineNumber content idx) ∧
        AdvancedPatterns.getLineNumber content idx = (content.data.take idx).count '\n' + 1) ∧
    (∀ v ∈ AdvancedPatterns.detectPathTraversal content filename,
      v.location = filename) := by
  constructor
  · intro v hv
    rw [AdvancedPatterns.detectHardcodedSecrets, List.mem_flatMap] at hv
    obtain ⟨spIdxs, hsp, hvmem⟩ := hv
    rw [List.mem_map] at hvmem
    obtain ⟨idx, hidx, rfl⟩ := hvmem
    exact ⟨idx, rfl, getLineNumber_eq_count content idx⟩
  · intro v hv
    rw [AdvancedPatterns.detectPathTraversal] at hv
    split at hv
    · rw [List.mem_singleton] at hv
      subst hv
      rfl
    · simp at hv

end RepoScan

namespace RepoScan

/-- C9 witness: the amended statement applied to a concrete match of the
API-key pattern at offset 6 of a two-line file (located `cfg.js:2`) and to a
concrete path-traversal match (located at the bare filename). -/
theorem pattern_locations_characterisation_witness :
    (∃ idx,
      ({ severity := .critical, type := .code_pattern,
         description := "Potential hardcoded API key",
         location := "cfg.js:2", cve_id := none,
         details := some "Hardcoded credentials should be moved to environment variables" } :
        Vulnerability).location =
          "cfg.js" ++ ":" ++ toString (AdvancedPatterns.getLineNumber "x = 1\npwd" idx) ∧
      AdvancedPatterns.getLineNumber "x = 1\npwd" idx =
        (("x = 1\npwd" : String).data.take idx).count '\n' + 1) ∧
    ({ severity := .high, type := .code_pattern,
       description := "Potential path traversal vulnerability",
       location := "app.js", cve_id := none,
       details := some "User input used in file paths without validation. Sanitize and validate paths" } :
      Vulnerability).location = "app.js" :=
  ⟨(pattern_locations_characterisation "x = 1\npwd" "cfg.js" [[6]]).1 _ (by decide),
   (pattern_locations_characterisation "fs.readFile(req.query.file)" "app.js" []).2 _ (by decide)⟩

end RepoScan
namespace RepoScan

open SupplyChain

lemma popular_names_never_suspicious :
    (popularPackages.all fun e₁ => popularPackages.all fun e₂ =>
      !(isSuspiciousFor e₁.1 e₂.1 e₂.2)) = true := by decide

/-- C1 counterexample: `typescrpt` is at Levenshtein distance 1 from the
curated popular name `typescript`, yet the typosquatting check emits no
finding for it at all (the curated name itself is skipped as a comparison
target by the `v === legit` guard, and `typescrpt` is at distance ≥ 2 from
every other variant). -/
theorem typosquat_distance_one_not_flagged :
    levenshteinDistance "typescrpt" "typescript" = 1 ∧
    ("typescript", ["typescript", "typscript", "type-script"]) ∈ popularPackages ∧
    checkTyposquatting ["typescrpt"] = [] :=
  ⟨by decide, by decide, by decide⟩

/-- C1 amended: a dependency receives a critical `dependency` typosquatting
finding at `package.json` exactly when its lower-cased name passes the
code's per-entry variant test (distance ≤ 1 to some curated variant `v` with
`v ≠ legit`, the name equal to neither `legit` nor `v`); a dependency whose
lower-cased name equals a curated popular name receives no critical finding
at all. -/
theorem checkTyposquatting_characterisation (dep : String) :
    ((∃ e ∈ popularPackages, isSuspiciousFor (toLowerCase dep) e.1 e.2) ↔
      ∃ w ∈ checkTyposquatting [dep],
        w.severity = .critical ∧ w.type = .dependency ∧ w.location = "package.json") ∧
    (toLowerCase dep ∈ popularPackages.map Prod.fst →
      ∀ w ∈ checkTyposquatting [dep], w.severity ≠ .critical) := by
  constructor
  · constructor
    · rintro ⟨e, he, hsusp⟩
      have hsome : (popularPackages.find?
          (fun lv => isSuspiciousFor (toLowerCase dep) lv.1 lv.2)).isSome :=
        List.find?_isSome.mpr ⟨e, he, hsusp⟩
      obtain ⟨lv, hlv⟩ := Option.isSome_iff_exists.mp hsome
      refine ⟨⟨.critical, .dependency,
        "Potential typosquatting: " ++ dep ++ " looks similar to " ++ lv.1,
        "package.json", none,
        some "This package name is suspiciously similar to a popular package"⟩,
        ?_, rfl, rfl, rfl⟩
      simp only [checkTyposquatting, List.flatMap_cons, List.flatMap_nil,
        List.append_nil, typosquatCritical, hlv]
      exact List.mem_append_left _ (List.mem_cons_self _ _)
    · rintro ⟨w, hw, hcrit, -, -⟩
      simp only [checkTyposquatting, List.flatMap_cons, List.flatMap_nil,
        List.append_nil] at hw
      rcases List.mem_append.mp hw with hw | hw
      · rw [typosquatCritical] at hw
        rcases hfind : popularPackages.find?
            (fun lv => isSuspiciousFor (toLowerCase dep) lv.1 lv.2) with _ | lv
        · rw [hfind] at hw
          simp at hw
        · refine ⟨lv, List.mem_of_find?_eq_some hfind, ?_⟩
          have := List.find?_some hfind
          simpa using this
      · rw [typosquatPattern] at hw
        split at hw
        · rw [List.mem_singleton] at hw
          rw [hw] at hcrit
          simp at hcrit
        · simp at hw
  · intro hname w hw hcrit
    simp only [checkTyposquatting, List.flatMap_cons, List.flatMap_nil,
      List.append_nil] at hw
    obtain ⟨e₁, he₁, hfst⟩ := List.mem_map.mp hname
    have hall := List.all_eq_true.mp popular_names_never_suspicious
    rcases List.mem_append.mp hw with hw | hw
    · rw [typosquatCritical] at hw
      have hnone : popularPackages.find?
          (fun lv => isSuspiciousFor (toLowerCase dep) lv.1 lv.2) = none := by
        rw [List.find?_eq_none]
        intro e₂ he₂
        have := List.all_eq_true.mp (hall e₁ he₁) e₂ he₂
        rw [hfst] at this
        simpa using this
      rw [hnone] at hw
      simp at hw
    · rw [typosquatPattern] at hw
      split at hw
      · rw [List.mem_singleton] at hw
        rw [hw] at hcrit
        simp at hcrit
      · simp at hw

/-- C1 witness: `axoi` (distance 1 from the curated variant `axois` of
`axios`) is flagged critical; the curated name `typescript` itself yields no
critical finding. -/
theorem checkTyposquatting_characterisation_witness :
    (∃ w ∈ checkTyposquatting ["axoi"],
      w.severity = .critical ∧ w.type = .dependency ∧ w.location = "package.json") ∧
    (∀ w ∈ checkTyposquatting ["typescript"], w.severity ≠ .critical) :=
  ⟨(checkTyposquatting_characterisation "axoi").1.mp
      ⟨("axios", ["axios", "axois", "axiom"]), by decide, by decide⟩,
   (checkTyposquatting_characterisation "typescript").2 (by decide)⟩

end RepoScan
